import Mathlib

/-!
A shallow embedding of the quiz authoring / attempt-lifecycle / grading core
of the senseLearn learning hub (files `src/quiz/models.py`,
`src/quiz/student_routes.py`, `src/quiz/tutor_routes.py`).

Modelling conventions:
* SQL `Numeric(5,2)` columns and Python `float` arithmetic are modelled as
  exact rationals (`ℚ`); every value appearing in the claims is exactly
  representable so no rounding behaviour is lost.
* Nullable columns are `Option` types.  Python truthiness tests on nullable
  numeric columns (`if quiz.max_attempts:`, `if not self.score:`) are modelled
  by explicit truthiness functions: `none` and numeric `0` are falsy.
* Python strings are Lean `String`s.  `str.strip` / `str.lower` are modelled
  on the ASCII fragment (all data in this repository's quiz fixtures is
  ASCII); `int(s)` is modelled for an optional sign followed by digits
  (Python's underscore digit grouping is not modelled — no behaviour in the
  claims depends on it).
* Database tables are Lean lists of row structures kept in insertion order;
  SQLAlchemy `.first()` becomes `List.find?`, `.count()` becomes the length
  of a filter.  A request/route is a pure function from the database state
  and the request parameters to a result and a new database state, with a
  rollback (unchanged state) on every error path, mirroring the
  `db.session.rollback()` calls of the routes.
-/

namespace SenseLearn

/-! ### Python string primitives -/

/-- ASCII whitespace recognised by Python's `str.strip()`. -/
def pyIsSpace (c : Char) : Bool :=
  c = ' ' || c = '\t' || c = '\n' || c = '\x0d' || c = '\x0b' || c = '\x0c'

/-- Python `str.strip()` on the character list of a string. -/
def pyStripList (l : List Char) : List Char :=
  ((l.dropWhile pyIsSpace).reverse.dropWhile pyIsSpace).reverse

/-- Python `str.strip()`. -/
def pyStrip (s : String) : String :=
  ⟨pyStripList s.data⟩

/-- ASCII lower-casing of a single character, as Python `str.lower()` does on
ASCII input. -/
def asciiLower (c : Char) : Char :=
  if 'A' ≤ c ∧ c ≤ 'Z' then Char.ofNat (c.toNat + 32) else c

/-- Python `str.lower()` (ASCII fragment). -/
def pyLower (s : String) : String :=
  ⟨s.data.map asciiLower⟩

/-- The normalisation `s.strip().lower()` used throughout the grading code. -/
def pyNorm (s : String) : String :=
  pyLower (pyStrip s)

/-- Value of a (non-empty) digit string. -/
def digitsVal (l : List Char) : Nat :=
  l.foldl (fun acc c => 10 * acc + (c.toNat - '0'.toNat)) 0

/-- Python `int(s)`: optional whitespace, an optional sign, then at least one
digit.  Returns `none` when Python would raise `ValueError`. -/
def pyInt (s : String) : Option Int :=
  let l := pyStripList s.data
  match l with
  | [] => none
  | c :: rest =>
    if c = '-' then
      if rest ≠ [] ∧ rest.all Char.isDigit then some (-(digitsVal rest : Int)) else none
    else if c = '+' then
      if rest ≠ [] ∧ rest.all Char.isDigit then some (digitsVal rest : Int) else none
    else
      if l.all Char.isDigit then some (digitsVal l : Int) else none

/-! ### Data model (`src/quiz/models.py`) -/

/-- Row of `quiz_question_options` (model `QuestionOption`). -/
structure QuestionOption where
  id : Nat
  question_id : Nat
  option_text : String
  is_correct : Bool
  order_index : Int
  deriving DecidableEq, Repr

/-- Row of `quiz_questions` (model `Question`).  The `options` relationship is
inlined as the list of this question's options in insertion order (the claims
never depend on `order_index` reordering). -/
structure Question where
  id : Nat
  quiz_id : Nat
  question_type : String
  question_text : String
  points : ℚ
  order_index : Int
  correct_answer : Option String
  options : List QuestionOption
  deriving DecidableEq, Repr

/-- `question.options.filter_by(is_correct=True).first()`. -/
def Question.firstCorrectOption (q : Question) : Option QuestionOption :=
  q.options.find? (·.is_correct)

/-- `Question.check_answer(student_answer)` from `src/quiz/models.py`. -/
def Question.check_answer (q : Question) (student_answer : String) : Bool :=
  if q.question_type = "multiple_choice" then
    match q.firstCorrectOption with
    | none => false
    | some correct_option =>
      match pyInt student_answer with
      | some option_id => option_id = (correct_option.id : Int)
      | none => pyNorm student_answer = pyNorm correct_option.option_text
  else if q.question_type = "true_false" then
    pyNorm (q.correct_answer.getD "") = pyNorm student_answer
  else if q.question_type = "short_answer" then
    pyNorm (q.correct_answer.getD "") = pyNorm student_answer
  else
    false

/-- Row of `quizzes` (model `Quiz`).  Columns the quiz core never reads
(`description`, `instructions`, `created_at`, `created_by`) are omitted;
`Numeric(5,2)` is modelled as `ℚ`. -/
structure QuizRow where
  id : Nat
  course_id : Nat
  module_id : Option Nat
  title : String
  time_limit_minutes : Option Nat
  passing_score : Option ℚ
  max_attempts : Option Int
  is_active : Bool
  order_index : Int
  deriving DecidableEq, Repr

/-- Row of `quiz_attempts` (model `QuizAttempt`).  Timestamps are abstract
clock ticks (`Nat`). -/
structure AttemptRow where
  id : Nat
  quiz_id : Nat
  student_id : Nat
  started_at : Nat
  submitted_at : Option Nat
  is_completed : Bool
  score : Option ℚ
  total_points : Option ℚ
  max_points : Option ℚ
  deriving DecidableEq, Repr

/-- Row of `quiz_answers` (model `Answer`). -/
structure AnswerRow where
  id : Nat
  attempt_id : Nat
  question_id : Nat
  answer_text : Option String
  option_id : Option Nat
  is_correct : Option Bool
  points_earned : Option ℚ
  answered_at : Nat
  deriving DecidableEq, Repr

/-- Python truthiness of a nullable numeric column: `None` and `0` are falsy. -/
def truthyQ : Option ℚ → Bool
  | none => false
  | some x => x ≠ 0

/-- Python truthiness of a nullable integer column. -/
def truthyInt : Option Int → Bool
  | none => false
  | some n => n ≠ 0

/-- Python truthiness of a nullable id column. -/
def truthyNat : Option Nat → Bool
  | none => false
  | some n => n ≠ 0

/-- The database state seen by the quiz routes.  Tables are lists in insertion
order; `enrollments` holds the `(course_id, student_id)` pairs whose
`CourseStudent` row has `status='enrolled'`, and `course_tutors` holds the
`(course_id, tutor_id)` assignment pairs.  The `next*Id` counters model the
autoincrement primary keys handed out by `db.session.flush()`/`commit()`. -/
structure Db where
  quizzes : List QuizRow
  questions : List Question
  attempts : List AttemptRow
  answers : List AnswerRow
  enrollments : List (Nat × Nat)
  course_tutors : List (Nat × Nat)
  nextQuestionId : Nat
  nextOptionId : Nat
  nextAttemptId : Nat
  nextAnswerId : Nat
  now : Nat
  deriving DecidableEq, Repr

/-- `Quiz.query.get(quiz_id)`. -/
def Db.findQuiz (db : Db) (quiz_id : Nat) : Option QuizRow :=
  db.quizzes.find? (·.id = quiz_id)

/-- `Question.query.get(question_id)`. -/
def Db.findQuestion (db : Db) (question_id : Nat) : Option Question :=
  db.questions.find? (·.id = question_id)

/-- `QuizAttempt.query.get(attempt_id)`. -/
def Db.findAttempt (db : Db) (attempt_id : Nat) : Option AttemptRow :=
  db.attempts.find? (·.id = attempt_id)

/-- `CourseStudent.query.filter_by(course_id=…, student_id=…, status='enrolled')`. -/
def Db.isEnrolled (db : Db) (course_id student_id : Nat) : Bool :=
  (course_id, student_id) ∈ db.enrollments

/-- The `course_tutors` assignment check common to all tutor routes. -/
def Db.isAssigned (db : Db) (course_id tutor_id : Nat) : Bool :=
  (course_id, tutor_id) ∈ db.course_tutors

/-- The `quiz.questions` relationship: this quiz's questions. -/
def Db.quizQuestions (db : Db) (quiz_id : Nat) : List Question :=
  db.questions.filter (·.quiz_id = quiz_id)

/-- The `attempt.answers` relationship: this attempt's answers. -/
def Db.attemptAnswers (db : Db) (attempt_id : Nat) : List AnswerRow :=
  db.answers.filter (·.attempt_id = attempt_id)

/-- `Quiz.get_total_points`: `sum(q.points for q in self.questions)`. -/
def Quiz.get_total_points (db : Db) (quiz_id : Nat) : ℚ :=
  ((db.quizQuestions quiz_id).map (·.points)).sum

/-- `QuizAttempt.query.filter_by(quiz_id=…, student_id=…, is_completed=True).count()`. -/
def Db.completedCount (db : Db) (quiz_id student_id : Nat) : Nat :=
  (db.attempts.filter
    (fun a => a.quiz_id = quiz_id ∧ a.student_id = student_id ∧ a.is_completed)).length

/-- `QuizAttempt.query.filter_by(quiz_id=…, student_id=…, is_completed=False).first()`. -/
def Db.findIncomplete (db : Db) (quiz_id student_id : Nat) : Option AttemptRow :=
  db.attempts.find?
    (fun a => a.quiz_id = quiz_id ∧ a.student_id = student_id ∧ ¬ a.is_completed)

/-! ### Grading of stored answers (`src/quiz/models.py`) -/

/-- `Answer.check_and_update` from `src/quiz/models.py`: grade one stored
answer against its question, setting `is_correct` and `points_earned`.
`is_correct` is `none` exactly when Python stores `None` (a multiple-choice
answer with a truthy `option_id` but no correct option on the question,
where `correct_option and …` evaluates to `None`). -/
def Answer.check_and_update (question : Question) (a : AnswerRow) : AnswerRow :=
  let graded :=
    if question.question_type = "multiple_choice" then
      if truthyNat a.option_id then
        match question.firstCorrectOption with
        | none => { a with is_correct := none }
        | some correct_option =>
          { a with is_correct := some (a.option_id = some correct_option.id) }
      else
        { a with is_correct := some false }
    else
      { a with is_correct := some (question.check_answer (a.answer_text.getD "")) }
  if graded.is_correct = some true then
    { graded with points_earned := some question.points }
  else
    { graded with points_earned := some 0 }

/-- `float(answer.question.points)` for a stored answer: the points of the
question the answer refers to.  A dangling `question_id` (impossible under the
FK constraint) contributes `0`. -/
def answerPoints (db : Db) (ans : AnswerRow) : ℚ :=
  ((db.findQuestion ans.question_id).map (·.points)).getD 0

/-- One iteration of the scoring loop in `QuizAttempt.calculate_score`:
`max_points += question.points`, and `total_points += question.points` when
`answer.is_correct` is truthy. -/
def scoreStep (db : Db) (acc : ℚ × ℚ) (ans : AnswerRow) : ℚ × ℚ :=
  (acc.1 + answerPoints db ans,
   if ans.is_correct = some true then acc.2 + answerPoints db ans else acc.2)

/-- `QuizAttempt.calculate_score` from `src/quiz/models.py`: fold over the
attempt's answers, accumulating `max_points` from every answered question and
`total_points` from the truthy-`is_correct` ones, then store the percentage
`(total_points / max_points) * 100` (or `0` when `max_points` is not
positive). -/
def QuizAttempt.calculate_score (db : Db) (a : AttemptRow) : AttemptRow :=
  if ¬ a.is_completed then a
  else
    let totals := (db.attemptAnswers a.id).foldl (scoreStep db) (0, 0)
    { a with
      total_points := some totals.2
      max_points := some totals.1
      score := some (if totals.1 > 0 then (totals.2 / totals.1) * 100 else 0) }

/-- `QuizAttempt.is_passing` from `src/quiz/models.py`, with the attempt's
quiz row (`self.quiz`) passed explicitly: false when either the quiz's
current `passing_score` or the attempt's `score` is falsy (null or zero),
otherwise `score >= passing_score`. -/
def QuizAttempt.is_passing (quiz : QuizRow) (a : AttemptRow) : Bool :=
  if ¬ truthyQ quiz.passing_score ∨ ¬ truthyQ a.score then false
  else a.score.getD 0 ≥ quiz.passing_score.getD 0

/-! ### Student routes (`src/quiz/student_routes.py`)

Each route is a pure function from the database state and the request
parameters to a result and the new database state.  The `current_user` is the
`student_id` argument; every error branch leaves the state unchanged
(`db.session.rollback()`). -/

/-- Outcome of `POST /api/quizzes/<quiz_id>/start`. -/
inductive StartResult where
  | quizNotFound
  | notEnrolled
  | quizInactive
  | limitExceeded (max_attempts : Int)
  | resumed (attempt_id : Nat)
  | started (attempt_id : Nat)
  deriving DecidableEq, Repr

/-- `start_quiz_attempt` from `src/quiz/student_routes.py`.  The checks run in
source order: quiz lookup, enrollment, `is_active`, the attempt limit against
the quiz's current truthy `max_attempts`, and only then the lookup of an
existing incomplete attempt. -/
def start_quiz_attempt (db : Db) (quiz_id student_id : Nat) : StartResult × Db :=
  match db.findQuiz quiz_id with
  | none => (.quizNotFound, db)
  | some quiz =>
    if ¬ db.isEnrolled quiz.course_id student_id then (.notEnrolled, db)
    else if ¬ quiz.is_active then (.quizInactive, db)
    else if truthyInt quiz.max_attempts ∧
        (db.completedCount quiz_id student_id : Int) ≥ quiz.max_attempts.getD 0 then
      (.limitExceeded (quiz.max_attempts.getD 0), db)
    else
      match db.findIncomplete quiz_id student_id with
      | some incomplete_attempt => (.resumed incomplete_attempt.id, db)
      | none =>
        let attempt : AttemptRow :=
          { id := db.nextAttemptId, quiz_id := quiz_id, student_id := student_id,
            started_at := db.now, submitted_at := none, is_completed := false,
            score := none, total_points := none, max_points := none }
        (.started attempt.id,
          { db with attempts := db.attempts ++ [attempt],
                    nextAttemptId := db.nextAttemptId + 1 })

/-- Outcome of `POST /api/attempts/<attempt_id>/answer`. -/
inductive SaveResult where
  | attemptNotFound
  | unauthorized
  | attemptCompleted
  | questionIdRequired
  | invalidQuestion
  | saved
  deriving DecidableEq, Repr

/-- `save_answer` from `src/quiz/student_routes.py`: authorization and
completion guards, then an upsert of the `Answer` row keyed by
`(attempt_id, question_id)`.  `question_id` is the request field, `none`/`0`
falsy as in `if not question_id`. -/
def save_answer (db : Db) (student_id attempt_id : Nat) (question_id : Option Nat)
    (answer_text : Option String) (option_id : Option Nat) : SaveResult × Db :=
  match db.findAttempt attempt_id with
  | none => (.attemptNotFound, db)
  | some attempt =>
    if attempt.student_id ≠ student_id then (.unauthorized, db)
    else if attempt.is_completed then (.attemptCompleted, db)
    else if ¬ truthyNat question_id then (.questionIdRequired, db)
    else
      let qid := question_id.getD 0
      match db.findQuestion qid with
      | none => (.invalidQuestion, db)
      | some question =>
        if question.quiz_id ≠ attempt.quiz_id then (.invalidQuestion, db)
        else
          match db.answers.find?
              (fun ans => ans.attempt_id = attempt_id ∧ ans.question_id = qid) with
          | some existing_answer =>
            let updated :=
              if question.question_type = "multiple_choice" then
                { existing_answer with option_id := option_id, answer_text := none,
                                       answered_at := db.now }
              else
                { existing_answer with
                    answer_text := some (pyStrip (answer_text.getD "")),
                    option_id := none, answered_at := db.now }
            let newAnswers := db.answers.map
              (fun ans => if ans.id = existing_answer.id then updated else ans)
            (.saved, { db with answers := newAnswers })
          | none =>
            let answer : AnswerRow :=
              { id := db.nextAnswerId, attempt_id := attempt_id, question_id := qid,
                answer_text :=
                  if question.question_type = "multiple_choice" then none
                  else some (pyStrip (answer_text.getD "")),
                option_id :=
                  if question.question_type = "multiple_choice" then option_id
                  else none,
                is_correct := none, points_earned := none, answered_at := db.now }
            (.saved, { db with answers := db.answers ++ [answer],
                               nextAnswerId := db.nextAnswerId + 1 })

/-- Outcome of `POST /api/attempts/<attempt_id>/submit`. -/
inductive SubmitResult where
  | attemptNotFound
  | unauthorized
  | attemptCompleted
  | submitted
  deriving DecidableEq, Repr

/-- The grading pass of `submit_quiz_attempt` applied to one stored answer:
answers of the submitted attempt go through `Answer.check_and_update`, all
other rows are untouched. -/
def gradeOne (db : Db) (attempt_id : Nat) (ans : AnswerRow) : AnswerRow :=
  if ans.attempt_id = attempt_id then
    match db.findQuestion ans.question_id with
    | some question => Answer.check_and_update question ans
    | none => ans
  else ans

/-- The grading pass of `submit_quiz_attempt` over the whole `quiz_answers`
table (`for answer in answers: answer.check_and_update()`). -/
def gradeAnswers (db : Db) (attempt_id : Nat) : List AnswerRow :=
  db.answers.map (gradeOne db attempt_id)

/-- `submit_quiz_attempt` from `src/quiz/student_routes.py`: guard, grade each
of the attempt's answers via `Answer.check_and_update`, mark the attempt
completed with `submitted_at = now`, then `calculate_score` over the graded
answers.  The whole transition commits atomically. -/
def submit_quiz_attempt (db : Db) (student_id attempt_id : Nat) : SubmitResult × Db :=
  match db.findAttempt attempt_id with
  | none => (.attemptNotFound, db)
  | some attempt =>
    if attempt.student_id ≠ student_id then (.unauthorized, db)
    else if attempt.is_completed then (.attemptCompleted, db)
    else
      let db1 := { db with answers := gradeAnswers db attempt_id }
      let completed := { attempt with is_completed := true, submitted_at := some db.now }
      let scored := QuizAttempt.calculate_score db1 completed
      let newAttempts := db1.attempts.map (fun a => if a.id = attempt.id then scored else a)
      (.submitted, { db1 with attempts := newAttempts })

/-! ### Tutor routes (`src/quiz/tutor_routes.py`) -/

/-- One entry of the `options` array of an authoring request. -/
structure OptionPayload where
  option_text : String
  is_correct : Bool
  order_index : Option Int
  deriving DecidableEq, Repr

/-- Body of `POST /api/quizzes/<quiz_id>/questions`, already JSON-decoded:
`points` defaults to `1.0` and `order_index` to `0` at the caller. -/
structure AddQuestionPayload where
  question_type : String
  question_text : String
  points : ℚ
  order_index : Int
  correct_answer : Option String
  options : List OptionPayload
  deriving DecidableEq, Repr

/-- Outcome of `POST /api/quizzes/<quiz_id>/questions`. -/
inductive AddQuestionResult where
  | quizNotFound
  | notAssigned
  | invalidType
  | textRequired
  | pointsNotPositive
  | tooFewOptions
  | correctCountNotOne
  | created (question_id : Nat)
  deriving DecidableEq, Repr

/-- Materialise the option payloads of a multiple-choice authoring request as
`QuestionOption` rows, with ids handed out from `firstOptionId` and
`order_index` defaulting to the list position (`enumerate` in the source). -/
def buildOptions (firstOptionId question_id : Nat) (options : List OptionPayload) :
    List QuestionOption :=
  options.enum.map (fun p =>
    { id := firstOptionId + p.1, question_id := question_id,
      option_text := pyStrip p.2.option_text, is_correct := p.2.is_correct,
      order_index := p.2.order_index.getD (p.1 : Int) })

/-- `add_question` from `src/quiz/tutor_routes.py`: validation in source order
(type, text, points, and for multiple choice the option-list size and the
exactly-one-correct count), then the question and its options are created as
one unit; every failure rolls back to the unchanged state. -/
def add_question (db : Db) (tutor_id quiz_id : Nat) (data : AddQuestionPayload) :
    AddQuestionResult × Db :=
  match db.findQuiz quiz_id with
  | none => (.quizNotFound, db)
  | some quiz =>
    if ¬ db.isAssigned quiz.course_id tutor_id then (.notAssigned, db)
    else
      let question_type := pyStrip data.question_type
      if ¬ (question_type = "multiple_choice" ∨ question_type = "short_answer" ∨
            question_type = "true_false") then (.invalidType, db)
      else if pyStrip data.question_text = "" then (.textRequired, db)
      else if data.points ≤ 0 then (.pointsNotPositive, db)
      else if question_type = "multiple_choice" ∧ data.options.length < 2 then
        (.tooFewOptions, db)
      else if question_type = "multiple_choice" ∧
          (data.options.filter (·.is_correct)).length ≠ 1 then
        (.correctCountNotOne, db)
      else
        let qid := db.nextQuestionId
        let opts :=
          if question_type = "multiple_choice" then
            buildOptions db.nextOptionId qid data.options
          else []
        let question : Question :=
          { id := qid, quiz_id := quiz_id, question_type := question_type,
            question_text := pyStrip data.question_text, points := data.points,
            order_index := data.order_index,
            correct_answer :=
              if question_type = "multiple_choice" then none
              else some (pyStrip (data.correct_answer.getD "")),
            options := opts }
        (.created qid,
          { db with questions := db.questions ++ [question],
                    nextQuestionId := qid + 1,
                    nextOptionId := db.nextOptionId + opts.length })

/-- Body of `PUT /api/questions/<question_id>`: `some` marks a key present in
the JSON body (`'field' in data`). -/
structure UpdateQuestionPayload where
  question_text : Option String
  points : Option ℚ
  order_index : Option Int
  correct_answer : Option String
  options : Option (List OptionPayload)
  deriving DecidableEq, Repr

/-- Outcome of `PUT /api/questions/<question_id>`. -/
inductive UpdateQuestionResult where
  | questionNotFound
  | quizNotFound
  | notAssigned
  | tooFewOptions
  | correctCountNotOne
  | updated
  deriving DecidableEq, Repr

/-- `update_question` from `src/quiz/tutor_routes.py`: scalar fields are
overwritten when present (`correct_answer` only for short_answer/true_false);
for a multiple-choice question with an `options` key, the prior option set is
deleted and the replacement is validated (≥2 options, exactly one correct)
before taking effect — a validation failure rolls the whole transaction back,
leaving the question and its old options unchanged. -/
def update_question (db : Db) (tutor_id question_id : Nat)
    (data : UpdateQuestionPayload) : UpdateQuestionResult × Db :=
  match db.findQuestion question_id with
  | none => (.questionNotFound, db)
  | some question =>
    match db.findQuiz question.quiz_id with
    | none => (.quizNotFound, db)
    | some quiz =>
      if ¬ db.isAssigned quiz.course_id tutor_id then (.notAssigned, db)
      else
        let q1 : Question :=
          { question with
              question_text :=
                match data.question_text with
                | some t => pyStrip t
                | none => question.question_text,
              points := data.points.getD question.points,
              order_index := data.order_index.getD question.order_index,
              correct_answer :=
                match data.correct_answer with
                | some c =>
                  if question.question_type = "short_answer" ∨
                      question.question_type = "true_false" then some (pyStrip c)
                  else question.correct_answer
                | none => question.correct_answer }
        if question.question_type = "multiple_choice" ∧ data.options.isSome then
          let options := data.options.getD []
          if options.length < 2 then (.tooFewOptions, db)
          else if (options.filter (·.is_correct)).length ≠ 1 then
            (.correctCountNotOne, db)
          else
            let opts := buildOptions db.nextOptionId question.id options
            let q2 : Question := { q1 with options := opts }
            let newQuestions := db.questions.map
              (fun q => if q.id = question.id then q2 else q)
            (.updated, { db with questions := newQuestions,
                                 nextOptionId := db.nextOptionId + opts.length })
        else
          let newQuestions := db.questions.map
            (fun q => if q.id = question.id then q1 else q)
          (.updated, { db with questions := newQuestions })

/-- Body of `PUT /api/quizzes/<quiz_id>`: `some` marks a key present in the
JSON body.  For `max_attempts` the inner `Option` is the stored value
(`None`/`''` in the body clears the column to NULL). -/
structure UpdateQuizPayload where
  title : Option String
  time_limit_minutes : Option (Option Nat)
  passing_score : Option ℚ
  max_attempts : Option (Option Int)
  is_active : Option Bool
  order_index : Option Int
  deriving DecidableEq, Repr

/-- Outcome of `PUT /api/quizzes/<quiz_id>`. -/
inductive UpdateQuizResult where
  | quizNotFound
  | notAssigned
  | updated
  deriving DecidableEq, Repr

/-- `update_quiz` from `src/quiz/tutor_routes.py`: each present field
overwrites the column; there is no range validation, so `passing_score` and
`max_attempts` may be set to any value, including `0`. -/
def update_quiz (db : Db) (tutor_id quiz_id : Nat) (data : UpdateQuizPayload) :
    UpdateQuizResult × Db :=
  match db.findQuiz quiz_id with
  | none => (.quizNotFound, db)
  | some quiz =>
    if ¬ db.isAssigned quiz.course_id tutor_id then (.notAssigned, db)
    else
      let q1 : QuizRow :=
        { quiz with
            title :=
              match data.title with
              | some t => pyStrip t
              | none => quiz.title,
            time_limit_minutes := data.time_limit_minutes.getD quiz.time_limit_minutes,
            passing_score :=
              match data.passing_score with
              | some p => some p
              | none => quiz.passing_score,
            max_attempts := data.max_attempts.getD quiz.max_attempts,
            is_active := data.is_active.getD quiz.is_active,
            order_index := data.order_index.getD quiz.order_index }
      let newQuizzes := db.quizzes.map (fun q => if q.id = quiz.id then q1 else q)
      (.updated, { db with quizzes := newQuizzes })

/-! ### Concrete fixtures

A minimal course with one quiz, mirroring the spec's worked scenario: one
multiple-choice question worth 2 points (options "3" and "4", "4" correct) and
one true/false question worth 1 point.  Student 7 is enrolled in course 1 and
tutor 3 is assigned to it. -/

def opt21 : QuestionOption := ⟨21, 11, "3", false, 0⟩

def opt22 : QuestionOption := ⟨22, 11, "4", true, 1⟩

def q11 : Question := ⟨11, 1, "multiple_choice", "What is 2+2?", 2, 0, none, [opt21, opt22]⟩

def q12 : Question := ⟨12, 1, "true_false", "Paris is in France.", 1, 1, some "true", []⟩

def quiz1 : QuizRow := ⟨1, 1, none, "Quiz 1", none, some 60, some 2, true, 0⟩

def db0 : Db := ⟨[quiz1], [q11, q12], [], [], [(1, 7)], [(1, 3)], 13, 23, 31, 41, 100⟩

/-! ### List helper lemmas -/

/-- `find?` returns the head of the filtered list. -/
theorem find?_eq_filter_head? {α} (p : α → Bool) (l : List α) :
    l.find? p = (l.filter p).head? := by
  induction l with
  | nil => rfl
  | cons x xs ih =>
    by_cases hx : p x = true
    · rw [List.find?_cons_of_pos _ hx, List.filter_cons_of_pos hx, List.head?_cons]
    · rw [List.find?_cons_of_neg _ (by simpa using hx),
        List.filter_cons_of_neg (by simpa using hx), ih]

/-- `find?` commutes with a map that does not disturb the predicate. -/
theorem find?_map_invar {α} (f : α → α) (p : α → Bool) (l : List α)
    (h : ∀ x ∈ l, p (f x) = p x) : (l.map f).find? p = (l.find? p).map f := by
  induction l with
  | nil => rfl
  | cons x xs ih =>
    have hx := h x (by simp)
    by_cases hpx : p x = true
    · rw [List.map_cons, List.find?_cons_of_pos _ (by rw [hx]; exact hpx),
        List.find?_cons_of_pos _ hpx, Option.map_some']
    · rw [List.map_cons, List.find?_cons_of_neg _ (by rw [hx]; simpa using hpx),
        List.find?_cons_of_neg _ (by simpa using hpx),
        ih (fun y hy => h y (by simp [hy]))]

/-- `filter` commutes with a map that does not disturb the predicate. -/
theorem filter_map_invar {α} (f : α → α) (p : α → Bool) (l : List α)
    (h : ∀ x ∈ l, p (f x) = p x) : (l.map f).filter p = (l.filter p).map f := by
  induction l with
  | nil => rfl
  | cons x xs ih =>
    have hx := h x (by simp)
    by_cases hpx : p x = true
    · rw [List.map_cons, List.filter_cons_of_pos (by rw [hx]; exact hpx),
        List.filter_cons_of_pos hpx, List.map_cons,
        ih (fun y hy => h y (by simp [hy]))]
    · rw [List.map_cons, List.filter_cons_of_neg (by rw [hx]; simpa using hpx),
        List.filter_cons_of_neg (by simpa using hpx),
        ih (fun y hy => h y (by simp [hy]))]

/-! ### Claim C6 — multiple-choice grading in `Question.check_answer` -/

/-- Claim C6: for a multiple_choice question whose unique correct option is
`o`, `check_answer` judges a submitted value correct iff it is the numeral of
`o`'s id, or — only when the value does not parse as an integer — its text
equals `o`'s text after trimming and lower-casing. -/
theorem c6_mc_check_answer (q : Question) (o : QuestionOption) (s : String)
    (htype : q.question_type = "multiple_choice")
    (huniq : q.options.filter (·.is_correct) = [o]) :
    q.check_answer s = true ↔
      (pyInt s = some (o.id : Int) ∨
       (pyInt s = none ∧ pyNorm s = pyNorm o.option_text)) := by
  have hfirst : q.firstCorrectOption = some o := by
    rw [Question.firstCorrectOption, find?_eq_filter_head?, huniq, List.head?_cons]
  rw [Question.check_answer, if_pos htype, hfirst]
  cases hp : pyInt s with
  | none => simp
  | some n =>
    simp only [decide_eq_true_eq]
    constructor
    · intro hn; exact Or.inl (by rw [hn])
    · rintro (h | ⟨h, _⟩)
      · exact (Option.some_inj.mp h)
      · exact absurd h (by simp)

/-- Witness for C6 on the fixture question: submitting the correct option's id
`"22"` grades correct, and the equivalence applies. -/
theorem c6_witness :
    (q11.question_type = "multiple_choice" ∧
      q11.options.filter (·.is_correct) = [opt22]) ∧
    (q11.check_answer "22" = true ↔
      (pyInt "22" = some ((opt22.id : Nat) : Int) ∨
       (pyInt "22" = none ∧ pyNorm "22" = pyNorm opt22.option_text))) :=
  ⟨⟨by decide, by decide⟩, c6_mc_check_answer q11 opt22 "22" (by decide) (by decide)⟩

/-! ### Claim C7 — short_answer / true_false grading in `Question.check_answer` -/

/-- Claim C7: for a short_answer or true_false question, `check_answer` judges
a submission correct iff the trimmed, lower-cased `correct_answer` equals the
trimmed, lower-cased submission — exact normalized string equality. -/
theorem c7_text_check_answer (q : Question) (s : String)
    (htype : q.question_type = "short_answer" ∨ q.question_type = "true_false") :
    q.check_answer s = true ↔ pyNorm (q.correct_answer.getD "") = pyNorm s := by
  have hne : q.question_type ≠ "multiple_choice" := by
    rcases htype with h | h <;> rw [h] <;> decide
  rw [Question.check_answer, if_neg hne]
  rcases htype with h | h
  · rw [if_neg (by rw [h]; decide), if_pos h]; simp
  · rw [if_pos h]; simp

/-- Witness for C7: the spec's scenario — `correct_answer="Paris"`, submission
`" paris "` — grades correct. -/
theorem c7_witness :
    ((⟨14, 1, "short_answer", "Capital of France?", 2, 2, some "Paris", []⟩ :
        Question).question_type = "short_answer" ∨
     (⟨14, 1, "short_answer", "Capital of France?", 2, 2, some "Paris", []⟩ :
        Question).question_type = "true_false") ∧
    ((⟨14, 1, "short_answer", "Capital of France?", 2, 2, some "Paris", []⟩ :
        Question).check_answer " paris " = true ↔
      pyNorm ((some "Paris").getD "") = pyNorm " paris ") ∧
    pyNorm ((some "Paris").getD "") = pyNorm " paris " :=
  ⟨Or.inl (by decide),
   c7_text_check_answer _ " paris " (Or.inl (by decide)),
   by decide⟩

/-! ### Claim C3 — `QuizAttempt.is_passing` against the current passing score -/

/-- Trace for C3: the tutor sets `passing_score` to `0` (accepted — `update_quiz`
has no range validation), the student starts, answers the 2-point question
correctly and submits, scoring 100. -/
def c3_db : Db :=
  let db1 := (update_quiz db0 3 1 ⟨none, none, some 0, none, none, none⟩).2
  let db2 := (start_quiz_attempt db1 1 7).2
  let db3 := (save_answer db2 7 31 (some 11) none (some 22)).2
  (submit_quiz_attempt db3 7 31).2

unseal Rat.add Rat.mul Rat.inv Rat.sub in
/-- Counterexample to C3 as stated: after the trace, quiz 1's current
`passing_score` is `0` and attempt 31 is completed with score `100 ≥ 0`, yet
`is_passing` is `false` — the truthiness guard `if not self.quiz.passing_score`
rejects a zero passing score. -/
theorem c3_counterexample :
    (c3_db.findQuiz 1).map (·.passing_score) = some (some 0) ∧
    (c3_db.findAttempt 31).map (·.is_completed) = some true ∧
    (c3_db.findAttempt 31).map (·.score) = some (some 100) ∧
    ((c3_db.findQuiz 1).bind (fun qz =>
      (c3_db.findAttempt 31).map (fun a => QuizAttempt.is_passing qz a))) =
        some false ∧
    (100 : ℚ) ≥ (0 : ℚ) := by
  refine ⟨by decide, by decide, by decide, by decide, by decide⟩

/-- Claim C3 as amended: `is_passing` is true iff the quiz's **current**
`passing_score` is non-null and nonzero, the attempt's `score` is non-null and
nonzero, and `score ≥ passing_score`. -/
theorem c3_amended_is_passing (quiz : QuizRow) (a : AttemptRow) :
    QuizAttempt.is_passing quiz a = true ↔
      ∃ p s, quiz.passing_score = some p ∧ a.score = some s ∧
        p ≠ 0 ∧ s ≠ 0 ∧ s ≥ p := by
  cases hq : quiz.passing_score with
  | none => simp [QuizAttempt.is_passing, hq, truthyQ]
  | some p =>
    cases hs : a.score with
    | none => simp [QuizAttempt.is_passing, hq, hs, truthyQ]
    | some s =>
      by_cases hp0 : p = 0
      · simp [QuizAttempt.is_passing, hq, hs, truthyQ, hp0]
      · by_cases hs0 : s = 0
        · simp [QuizAttempt.is_passing, hq, hs, truthyQ, hp0, hs0]
        · simp [QuizAttempt.is_passing, hq, hs, truthyQ, hp0, hs0]

/-! ### Claim C1 — what `max_points` aggregates over -/

/-- `Answer.check_and_update` only writes `is_correct` and `points_earned`:
the row's identity columns are untouched. -/
theorem check_and_update_fields (q : Question) (ans : AnswerRow) :
    (Answer.check_and_update q ans).id = ans.id ∧
    (Answer.check_and_update q ans).attempt_id = ans.attempt_id ∧
    (Answer.check_and_update q ans).question_id = ans.question_id := by
  unfold Answer.check_and_update
  cases q.firstCorrectOption <;> split_ifs <;> refine ⟨?_, ?_, ?_⟩ <;>
    (try dsimp only) <;> split <;> rfl

/-- The grading pass preserves every identity column of an answer row. -/
theorem gradeOne_fields (db : Db) (attempt_id : Nat) (ans : AnswerRow) :
    (gradeOne db attempt_id ans).id = ans.id ∧
    (gradeOne db attempt_id ans).attempt_id = ans.attempt_id ∧
    (gradeOne db attempt_id ans).question_id = ans.question_id := by
  unfold gradeOne
  split_ifs
  · cases db.findQuestion ans.question_id with
    | none => exact ⟨rfl, rfl, rfl⟩
    | some q => exact check_and_update_fields q ans
  · exact ⟨rfl, rfl, rfl⟩

/-- First component of the scoring fold: the running `max_points` sum. -/
theorem foldl_scoreStep_fst (db : Db) (l : List AnswerRow) (x y : ℚ) :
    (l.foldl (scoreStep db) (x, y)).1 = x + (l.map (answerPoints db)).sum := by
  induction l generalizing x y with
  | nil => simp
  | cons a as ih =>
    rw [List.foldl_cons, List.map_cons, List.sum_cons]
    show (as.foldl (scoreStep db) (x + answerPoints db a, _)).1 = _
    rw [ih, add_assoc]

/-- `calculate_score` on a completed attempt stores `max_points` as the sum of
the points of the questions the attempt has answer rows for. -/
theorem calculate_score_max_points (db : Db) (a : AttemptRow)
    (h : a.is_completed = true) :
    (QuizAttempt.calculate_score db a).max_points =
      some ((db.attemptAnswers a.id).map (answerPoints db)).sum := by
  rw [QuizAttempt.calculate_score, if_neg (by simp [h])]
  show some ((db.attemptAnswers a.id).foldl (scoreStep db) (0, 0)).1 = _
  rw [foldl_scoreStep_fst, zero_add]

/-- `calculate_score` never changes the attempt's primary key. -/
theorem calculate_score_id (db : Db) (a : AttemptRow) :
    (QuizAttempt.calculate_score db a).id = a.id := by
  rw [QuizAttempt.calculate_score]; split <;> rfl

/-- `calculate_score` never changes the completion flag. -/
theorem calculate_score_is_completed (db : Db) (a : AttemptRow) :
    (QuizAttempt.calculate_score db a).is_completed = a.is_completed := by
  rw [QuizAttempt.calculate_score]; split <;> rfl

/-- The success branch of `submit_quiz_attempt`, written out. -/
theorem submit_result (db : Db) (student_id attempt_id : Nat) (att : AttemptRow)
    (hfind : db.findAttempt attempt_id = some att)
    (hown : att.student_id = student_id)
    (hnc : att.is_completed = false) :
    submit_quiz_attempt db student_id attempt_id =
      (.submitted,
        { db with
            answers := gradeAnswers db attempt_id,
            attempts := db.attempts.map (fun a =>
              if a.id = att.id then
                QuizAttempt.calculate_score
                  { db with answers := gradeAnswers db attempt_id }
                  { att with is_completed := true, submitted_at := some db.now }
              else a) }) := by
  simp only [submit_quiz_attempt, hfind]
  rw [if_neg (by simp [hown]), if_neg (by simp [hnc])]

/-- The attempt found after a successful submit is the rescored attempt. -/
theorem submit_findAttempt (db : Db) (student_id attempt_id : Nat) (att : AttemptRow)
    (hfind : db.findAttempt attempt_id = some att)
    (hown : att.student_id = student_id)
    (hnc : att.is_completed = false) :
    (submit_quiz_attempt db student_id attempt_id).2.findAttempt attempt_id =
      some (QuizAttempt.calculate_score
        { db with answers := gradeAnswers db attempt_id }
        { att with is_completed := true, submitted_at := some db.now }) := by
  have hid : att.id = attempt_id := by
    simpa using List.find?_some hfind
  rw [submit_result db student_id attempt_id att hfind hown hnc]
  dsimp only [Db.findAttempt]
  rw [find?_map_invar _ _ _ ?_]
  · have hfind' : db.attempts.find? (fun a => a.id = attempt_id) = some att := hfind
    rw [hfind', Option.map_some', if_pos rfl]
  · intro x _
    by_cases hx : x.id = att.id
    · rw [if_pos hx, calculate_score_id]
      simp [hx]
    · rw [if_neg hx]

/-- The graded answers of the submitted attempt are the original answered
rows, graded in place: same keys, in the same order. -/
theorem gradeAnswers_attemptAnswers (db : Db) (attempt_id : Nat) :
    ({ db with answers := gradeAnswers db attempt_id } : Db).attemptAnswers attempt_id =
      (db.attemptAnswers attempt_id).map (gradeOne db attempt_id) := by
  show (db.answers.map (gradeOne db attempt_id)).filter _ = _
  exact filter_map_invar _ _ _ (fun x _ => by
    simp [(gradeOne_fields db attempt_id x).2.1])

/-- Claim C1 as amended: for a submit of an in-progress attempt, the stored
`max_points` is the sum of `points` over the questions the attempt holds an
`Answer` row for — answered questions only, not all questions of the quiz. -/
theorem c1_amended_max_points (db : Db) (student_id attempt_id : Nat) (att : AttemptRow)
    (hfind : db.findAttempt attempt_id = some att)
    (hown : att.student_id = student_id)
    (hnc : att.is_completed = false) :
    ((submit_quiz_attempt db student_id attempt_id).2.findAttempt attempt_id).map
        (·.max_points) =
      some (some ((db.attemptAnswers attempt_id).map (answerPoints db)).sum) := by
  rw [submit_findAttempt db student_id attempt_id att hfind hown hnc, Option.map_some']
  rw [calculate_score_max_points _ _ rfl]
  show some (some ((({ db with answers := gradeAnswers db attempt_id } : Db).attemptAnswers
    att.id).map _).sum) = _
  have hid : att.id = attempt_id := by simpa using List.find?_some hfind
  rw [hid, gradeAnswers_attemptAnswers, List.map_map]
  rw [List.map_congr_left (g := answerPoints db) ?_]
  intro x _
  show answerPoints _ (gradeOne db attempt_id x) = answerPoints db x
  unfold answerPoints
  rw [(gradeOne_fields db attempt_id x).2.2]
  rfl

/-- Trace for C1: the student starts quiz 1 (attempt 31), answers only the
2-point multiple-choice question, leaves the 1-point true/false question
unanswered, and the state just before submitting. -/
def c1_pre : Db :=
  let db1 := (start_quiz_attempt db0 1 7).2
  (save_answer db1 7 31 (some 11) none (some 22)).2

/-- State after submitting attempt 31 with one of the two questions answered. -/
def c1_db : Db := (submit_quiz_attempt c1_pre 7 31).2

unseal Rat.add Rat.mul Rat.inv Rat.sub in
/-- Counterexample to C1 as stated: attempt 31 is completed on quiz 1, whose
questions are worth 2 + 1 = 3 points in total, yet the stored `max_points` is
`2` — only the answered question contributes; the unanswered question is not
part of the denominator. -/
theorem c1_counterexample :
    (c1_db.findAttempt 31).map (·.is_completed) = some true ∧
    (c1_db.findAttempt 31).map (·.quiz_id) = some 1 ∧
    (c1_db.findAttempt 31).map (·.max_points) = some (some 2) ∧
    Quiz.get_total_points c1_db 1 = 3 ∧
    (2 : ℚ) ≠ 3 := by
  refine ⟨by decide, by decide, by decide, by decide, by decide⟩

/-- Witness for the amended C1 at the concrete trace. -/
theorem c1_witness :
    (c1_pre.findAttempt 31 = some ⟨31, 1, 7, 100, none, false, none, none, none⟩ ∧
     (⟨31, 1, 7, 100, none, false, none, none, none⟩ : AttemptRow).student_id = 7 ∧
     (⟨31, 1, 7, 100, none, false, none, none, none⟩ : AttemptRow).is_completed = false) ∧
    ((submit_quiz_attempt c1_pre 7 31).2.findAttempt 31).map (·.max_points) =
      some (some ((c1_pre.attemptAnswers 31).map (answerPoints c1_pre)).sum) :=
  ⟨⟨by decide, by decide, by decide⟩,
   c1_amended_max_points c1_pre 7 31 ⟨31, 1, 7, 100, none, false, none, none, none⟩
     (by decide) (by decide) (by decide)⟩

/-! ### Claims C2 and C4 — `start_quiz_attempt` -/

/-- The fresh attempt row created by `start_quiz_attempt`. -/
def newAttempt (db : Db) (quiz_id student_id : Nat) : AttemptRow :=
  ⟨db.nextAttemptId, quiz_id, student_id, db.now, none, false, none, none, none⟩

/-- When an incomplete attempt exists and the limit check passes, `start`
resumes it and changes nothing. -/
theorem start_resumes (db : Db) (quiz_id student_id : Nat) (quiz : QuizRow)
    (a : AttemptRow)
    (hfind : db.findQuiz quiz_id = some quiz)
    (henr : db.isEnrolled quiz.course_id student_id = true)
    (hact : quiz.is_active = true)
    (hlim : ¬ (truthyInt quiz.max_attempts = true ∧
      (db.completedCount quiz_id student_id : Int) ≥ quiz.max_attempts.getD 0))
    (hinc : db.findIncomplete quiz_id student_id = some a) :
    start_quiz_attempt db quiz_id student_id = (.resumed a.id, db) := by
  simp [start_quiz_attempt, hfind, henr, hact, hlim, hinc]

/-- When no incomplete attempt exists and the limit check passes, `start`
creates a fresh in-progress attempt. -/
theorem start_creates (db : Db) (quiz_id student_id : Nat) (quiz : QuizRow)
    (hfind : db.findQuiz quiz_id = some quiz)
    (henr : db.isEnrolled quiz.course_id student_id = true)
    (hact : quiz.is_active = true)
    (hlim : ¬ (truthyInt quiz.max_attempts = true ∧
      (db.completedCount quiz_id student_id : Int) ≥ quiz.max_attempts.getD 0))
    (hinc : db.findIncomplete quiz_id student_id = none) :
    start_quiz_attempt db quiz_id student_id =
      (.started db.nextAttemptId,
        { db with attempts := db.attempts ++ [newAttempt db quiz_id student_id],
                  nextAttemptId := db.nextAttemptId + 1 }) := by
  simp [start_quiz_attempt, hfind, henr, hact, hlim, hinc, newAttempt]

/-- Appending the fresh (incomplete) attempt does not change the completed
count. -/
theorem completedCount_after_create (db : Db) (quiz_id student_id : Nat) :
    ({ db with attempts := db.attempts ++ [newAttempt db quiz_id student_id],
               nextAttemptId := db.nextAttemptId + 1 } : Db).completedCount
        quiz_id student_id =
      db.completedCount quiz_id student_id := by
  show ((db.attempts ++ [newAttempt db quiz_id student_id]).filter _).length = _
  rw [List.filter_append]
  simp [newAttempt, Db.completedCount]

/-- Trace for C2: the student completes one attempt (limit 2), starts a second
(now in progress), then the tutor lowers `max_attempts` to 1. -/
def c2_db : Db :=
  let db1 := (start_quiz_attempt db0 1 7).2
  let db2 := (submit_quiz_attempt db1 7 31).2
  let db3 := (start_quiz_attempt db2 1 7).2
  (update_quiz db3 3 1 ⟨none, none, none, some (some 1), none, none⟩).2

unseal Rat.add Rat.mul Rat.inv Rat.sub in
/-- Counterexample to C2 as stated: an in-progress attempt (id 32) exists for
(quiz 1, student 7), yet `start` does not return it — the attempt-limit check
runs first and fails, because one completed attempt already meets the lowered
limit of 1. -/
theorem c2_counterexample :
    (c2_db.findIncomplete 1 7).map (·.id) = some 32 ∧
    start_quiz_attempt c2_db 1 7 = (.limitExceeded 1, c2_db) := by
  exact ⟨by decide, by decide⟩

/-- Claim C2 as amended: when the completed-attempt count is still below the
quiz's current limit (or the limit is null/zero), `start` returns an existing
in-progress attempt unchanged, and two consecutive `start` calls with no
intervening submit return the same attempt id with no further state change. -/
theorem c2_amended_idempotent_start (db : Db) (quiz_id student_id : Nat)
    (quiz : QuizRow)
    (hfind : db.findQuiz quiz_id = some quiz)
    (henr : db.isEnrolled quiz.course_id student_id = true)
    (hact : quiz.is_active = true)
    (hlim : ¬ (truthyInt quiz.max_attempts = true ∧
      (db.completedCount quiz_id student_id : Int) ≥ quiz.max_attempts.getD 0)) :
    (∀ a, db.findIncomplete quiz_id student_id = some a →
       start_quiz_attempt db quiz_id student_id = (.resumed a.id, db)) ∧
    (∃ i, ((start_quiz_attempt db quiz_id student_id).1 = .resumed i ∨
           (start_quiz_attempt db quiz_id student_id).1 = .started i) ∧
       start_quiz_attempt (start_quiz_attempt db quiz_id student_id).2 quiz_id
           student_id =
         (.resumed i, (start_quiz_attempt db quiz_id student_id).2)) := by
  constructor
  · intro a ha
    exact start_resumes db quiz_id student_id quiz a hfind henr hact hlim ha
  · cases hinc : db.findIncomplete quiz_id student_id with
    | some a =>
      have h1 := start_resumes db quiz_id student_id quiz a hfind henr hact hlim hinc
      refine ⟨a.id, Or.inl (by rw [h1]), ?_⟩
      rw [h1]
      exact start_resumes db quiz_id student_id quiz a hfind henr hact hlim hinc
    | none =>
      have h1 := start_creates db quiz_id student_id quiz hfind henr hact hlim hinc
      refine ⟨db.nextAttemptId, Or.inr (by rw [h1]), ?_⟩
      rw [h1]
      dsimp only
      have h2 := start_resumes
        { db with attempts := db.attempts ++ [newAttempt db quiz_id student_id],
                  nextAttemptId := db.nextAttemptId + 1 }
        quiz_id student_id quiz (newAttempt db quiz_id student_id)
        hfind henr hact ?_ ?_
      · exact h2
      · rw [completedCount_after_create]
        exact hlim
      · show (db.attempts ++ [newAttempt db quiz_id student_id]).find? _ = _
        rw [List.find?_append]
        have hnone : db.attempts.find?
            (fun a => a.quiz_id = quiz_id ∧ a.student_id = student_id ∧
              ¬ a.is_completed) = none := hinc
        rw [hnone]
        simp [newAttempt]

/-- Witness for the amended C2 on the base fixture (no attempt yet: the first
start creates attempt 31, the second resumes it). -/
theorem c2_witness :
    (db0.findQuiz 1 = some quiz1 ∧
     db0.isEnrolled quiz1.course_id 7 = true ∧
     quiz1.is_active = true ∧
     ¬ (truthyInt quiz1.max_attempts = true ∧
        (db0.completedCount 1 7 : Int) ≥ quiz1.max_attempts.getD 0)) ∧
    ((∀ a, db0.findIncomplete 1 7 = some a →
        start_quiz_attempt db0 1 7 = (.resumed a.id, db0)) ∧
     (∃ i, ((start_quiz_attempt db0 1 7).1 = .resumed i ∨
            (start_quiz_attempt db0 1 7).1 = .started i) ∧
        start_quiz_attempt (start_quiz_attempt db0 1 7).2 1 7 =
          (.resumed i, (start_quiz_attempt db0 1 7).2))) :=
  ⟨⟨by decide, by decide, by decide, by decide⟩,
   c2_amended_idempotent_start db0 1 7 quiz1 (by decide) (by decide) (by decide)
     (by decide)⟩

/-- State for C4: the tutor sets `max_attempts` to `0` (accepted — no range
validation in `update_quiz`). -/
def c4_db : Db := (update_quiz db0 3 1 ⟨none, none, none, some (some 0), none, none⟩).2

/-- Counterexample to C4 as stated: quiz 1's current `max_attempts` is `0` and
the student's completed count (`0`) has reached it, so the claim demands
`AttemptLimitExceededError` — but `start` happily creates attempt 31: Python's
`if quiz.max_attempts:` treats `0` as "no limit configured". -/
theorem c4_counterexample :
    (c4_db.findQuiz 1).map (·.max_attempts) = some (some 0) ∧
    c4_db.completedCount 1 7 = 0 ∧
    ((0 : Int) ≥ (0 : Int)) ∧
    (start_quiz_attempt c4_db 1 7).1 = .started 31 := by
  exact ⟨by decide, by decide, by decide, by decide⟩

/-- Claim C4 as amended: with no in-progress attempt, `start` fails with the
limit error exactly when the quiz's current `max_attempts` is non-null and
nonzero and the completed count has reached it (null **or zero** means
unlimited); otherwise it creates a fresh in-progress attempt.  Because the
current value is read on every call, raising `max_attempts` above a student's
completed count re-enables `start`. -/
theorem c4_amended_attempt_limit (db : Db) (quiz_id student_id : Nat)
    (quiz : QuizRow)
    (hfind : db.findQuiz quiz_id = some quiz)
    (henr : db.isEnrolled quiz.course_id student_id = true)
    (hact : quiz.is_active = true)
    (hinc : db.findIncomplete quiz_id student_id = none) :
    ((start_quiz_attempt db quiz_id student_id).1 =
        .limitExceeded (quiz.max_attempts.getD 0) ↔
      (truthyInt quiz.max_attempts = true ∧
        (db.completedCount quiz_id student_id : Int) ≥ quiz.max_attempts.getD 0)) ∧
    (¬ (truthyInt quiz.max_attempts = true ∧
        (db.completedCount quiz_id student_id : Int) ≥ quiz.max_attempts.getD 0) →
      start_quiz_attempt db quiz_id student_id =
        (.started db.nextAttemptId,
          { db with attempts := db.attempts ++ [newAttempt db quiz_id student_id],
                    nextAttemptId := db.nextAttemptId + 1 })) := by
  constructor
  · by_cases hlim : truthyInt quiz.max_attempts = true ∧
      (db.completedCount quiz_id student_id : Int) ≥ quiz.max_attempts.getD 0
    · constructor
      · intro _; exact hlim
      · intro _
        simp [start_quiz_attempt, hfind, henr, hact, hlim]
    · rw [start_creates db quiz_id student_id quiz hfind henr hact hlim hinc]
      constructor
      · intro h; cases h
      · intro h; exact absurd h hlim
  · intro hlim
    exact start_creates db quiz_id student_id quiz hfind henr hact hlim hinc

/-- Trace for the C4 witness: the student exhausts a limit of 1 (one completed
attempt), then the tutor raises `max_attempts` to 3. -/
def c4w_db : Db :=
  let db1 := (update_quiz db0 3 1 ⟨none, none, none, some (some 1), none, none⟩).2
  let db2 := (start_quiz_attempt db1 1 7).2
  let db3 := (submit_quiz_attempt db2 7 31).2
  (update_quiz db3 3 1 ⟨none, none, none, some (some 3), none, none⟩).2

unseal Rat.add Rat.mul Rat.inv Rat.sub in
/-- Witness for the amended C4: after the limit is raised to 3 the completed
count (1) no longer meets it, so `start` succeeds again. -/
theorem c4_witness :
    (c4w_db.findQuiz 1 = some { quiz1 with max_attempts := some 3 } ∧
     c4w_db.isEnrolled quiz1.course_id 7 = true ∧
     ({ quiz1 with max_attempts := some 3 } : QuizRow).is_active = true ∧
     c4w_db.findIncomplete 1 7 = none ∧
     c4w_db.completedCount 1 7 = 1) ∧
    (((start_quiz_attempt c4w_db 1 7).1 =
        .limitExceeded (({ quiz1 with max_attempts := some 3 } : QuizRow).max_attempts.getD 0) ↔
      (truthyInt ({ quiz1 with max_attempts := some 3 } : QuizRow).max_attempts = true ∧
        (c4w_db.completedCount 1 7 : Int) ≥
          ({ quiz1 with max_attempts := some 3 } : QuizRow).max_attempts.getD 0)) ∧
     (¬ (truthyInt ({ quiz1 with max_attempts := some 3 } : QuizRow).max_attempts = true ∧
        (c4w_db.completedCount 1 7 : Int) ≥
          ({ quiz1 with max_attempts := some 3 } : QuizRow).max_attempts.getD 0) →
      start_quiz_attempt c4w_db 1 7 =
        (.started c4w_db.nextAttemptId,
          { c4w_db with attempts := c4w_db.attempts ++ [newAttempt c4w_db 1 7],
                        nextAttemptId := c4w_db.nextAttemptId + 1 }))) :=
  ⟨⟨by decide, by decide, by decide, by decide, by decide⟩,
   c4_amended_attempt_limit c4w_db 1 7 { quiz1 with max_attempts := some 3 }
     (by decide) (by decide) (by decide) (by decide)⟩

/-! ### Claim C5 — completed is terminal -/

/-- Two members of a list with pairwise-distinct keys that share a key are the
same element. -/
theorem pairwise_key_eq {α} (f : α → Nat) {l : List α}
    (h : l.Pairwise (fun x y => f x ≠ f y)) {a b : α}
    (ha : a ∈ l) (hb : b ∈ l) (hid : f b = f a) : b = a := by
  induction l with
  | nil => cases ha
  | cons x xs ih =>
    rcases List.pairwise_cons.mp h with ⟨hx, hxs⟩
    rcases List.mem_cons.mp ha with rfl | ha' <;>
      rcases List.mem_cons.mp hb with rfl | hb'
    · rfl
    · exact absurd hid (hx b hb').symm
    · exact absurd hid.symm (hx a ha').symm
    · exact ih hxs ha' hb'

/-- `db'` keeps every attempt of `db` that was completed completed. -/
def preservesCompleted (db db' : Db) : Prop :=
  ∀ a ∈ db.attempts, a.is_completed = true →
    ∀ a' ∈ db'.attempts, a'.id = a.id → a'.is_completed = true

/-- `save_answer` never touches the `quiz_attempts` table. -/
theorem save_answer_attempts (db : Db) (sid aid : Nat) (qid : Option Nat)
    (txt : Option String) (oid : Option Nat) :
    ((save_answer db sid aid qid txt oid).2).attempts = db.attempts := by
  unfold save_answer
  split
  · rfl
  · split_ifs <;> try rfl
    dsimp only
    split
    · rfl
    · split_ifs <;> first | rfl | (split <;> rfl)

/-- `start_quiz_attempt` leaves the attempts table unchanged or appends the
fresh in-progress attempt. -/
theorem start_attempts (db : Db) (q s : Nat) :
    ((start_quiz_attempt db q s).2).attempts = db.attempts ∨
    ((start_quiz_attempt db q s).2).attempts =
      db.attempts ++ [newAttempt db q s] := by
  unfold start_quiz_attempt
  split
  · exact Or.inl rfl
  · split_ifs <;> try exact Or.inl rfl
    split
    · exact Or.inl rfl
    · exact Or.inr rfl

/-- `submit_quiz_attempt` leaves the attempts table unchanged or rescans it,
replacing only the submitted attempt by its completed, rescored version. -/
theorem submit_attempts (db : Db) (s aid : Nat) :
    ((submit_quiz_attempt db s aid).2).attempts = db.attempts ∨
    (∃ att, db.findAttempt aid = some att ∧
      ((submit_quiz_attempt db s aid).2).attempts =
        db.attempts.map (fun a => if a.id = att.id then
          QuizAttempt.calculate_score { db with answers := gradeAnswers db aid }
            { att with is_completed := true, submitted_at := some db.now }
          else a)) := by
  cases h : db.findAttempt aid with
  | none => left; simp [submit_quiz_attempt, h]
  | some att =>
    by_cases h1 : att.student_id ≠ s
    · left; simp [submit_quiz_attempt, h, h1]
    · by_cases h2 : att.is_completed
      · left; simp [submit_quiz_attempt, h, h1, h2]
      · right
        exact ⟨att, rfl, by simp [submit_quiz_attempt, h, h1, h2]⟩

/-- Claim C5: once an attempt is completed, `save_answer` and `submit` on it
fail with the completed-attempt error and change nothing, and no modelled
operation ever flips a completed attempt back to in-progress. -/
theorem c5_completed_terminal (db : Db) (student_id attempt_id : Nat)
    (att : AttemptRow)
    (huniq : db.attempts.Pairwise (fun x y => x.id ≠ y.id))
    (hfresh : ∀ a ∈ db.attempts, a.id < db.nextAttemptId)
    (hfind : db.findAttempt attempt_id = some att)
    (hown : att.student_id = student_id)
    (hcomp : att.is_completed = true) :
    (∀ qid txt oid,
      save_answer db student_id attempt_id qid txt oid = (.attemptCompleted, db)) ∧
    submit_quiz_attempt db student_id attempt_id = (.attemptCompleted, db) ∧
    (∀ q s, preservesCompleted db (start_quiz_attempt db q s).2) ∧
    (∀ s aid qid txt oid,
      preservesCompleted db (save_answer db s aid qid txt oid).2) ∧
    (∀ s aid, preservesCompleted db (submit_quiz_attempt db s aid).2) := by
  have hmem : ∀ {x y : AttemptRow}, x ∈ db.attempts → y ∈ db.attempts →
      y.id = x.id → y = x :=
    fun hx hy => pairwise_key_eq (fun r => r.id) huniq hx hy
  refine ⟨?_, ?_, ?_, ?_, ?_⟩
  · intro qid txt oid
    simp [save_answer, hfind, hown, hcomp]
  · simp [submit_quiz_attempt, hfind, hown, hcomp]
  · intro q s a ha hac a' ha' hid
    rcases start_attempts db q s with he | he
    · rw [he] at ha'
      rw [hmem ha ha' hid]; exact hac
    · rw [he] at ha'
      rcases List.mem_append.mp ha' with h | h
      · rw [hmem ha h hid]; exact hac
      · have ha'new : a' = newAttempt db q s := List.mem_singleton.mp h
        have := hfresh a ha
        rw [← hid, ha'new] at this
        simp [newAttempt] at this
  · intro s aid qid txt oid a ha hac a' ha' hid
    rw [save_answer_attempts] at ha'
    rw [hmem ha ha' hid]; exact hac
  · intro s aid a ha hac a' ha' hid
    rcases submit_attempts db s aid with he | ⟨att2, _, he⟩
    · rw [he] at ha'
      rw [hmem ha ha' hid]; exact hac
    · rw [he] at ha'
      obtain ⟨x, hx, hfx⟩ := List.mem_map.mp ha'
      by_cases hc : x.id = att2.id
      · rw [← hfx]
        simp [hc, calculate_score_is_completed]
      · have hxa : a' = x := by rw [← hfx]; simp only [if_neg hc]
        subst hxa
        rw [hmem ha hx hid]
        exact hac

unseal Rat.add Rat.mul Rat.inv Rat.sub in
/-- Witness for C5 at the completed attempt 31 of the C1 trace. -/
theorem c5_witness :
    (c1_db.attempts.Pairwise (fun x y => x.id ≠ y.id) ∧
     (∀ a ∈ c1_db.attempts, a.id < c1_db.nextAttemptId) ∧
     c1_db.findAttempt 31 =
       some ⟨31, 1, 7, 100, some 100, true, some 100, some 2, some 2⟩ ∧
     (⟨31, 1, 7, 100, some 100, true, some 100, some 2, some 2⟩ :
        AttemptRow).student_id = 7 ∧
     (⟨31, 1, 7, 100, some 100, true, some 100, some 2, some 2⟩ :
        AttemptRow).is_completed = true) ∧
    ((∀ qid txt oid,
        save_answer c1_db 7 31 qid txt oid = (.attemptCompleted, c1_db)) ∧
     submit_quiz_attempt c1_db 7 31 = (.attemptCompleted, c1_db) ∧
     (∀ q s, preservesCompleted c1_db (start_quiz_attempt c1_db q s).2) ∧
     (∀ s aid qid txt oid,
        preservesCompleted c1_db (save_answer c1_db s aid qid txt oid).2) ∧
     (∀ s aid, preservesCompleted c1_db (submit_quiz_attempt c1_db s aid).2)) :=
  ⟨⟨by decide, by decide, by decide, by decide, by decide⟩,
   c5_completed_terminal c1_db 7 31
     ⟨31, 1, 7, 100, some 100, true, some 100, some 2, some 2⟩
     (by decide) (by decide) (by decide) (by decide) (by decide)⟩

/-! ### Claim C9 — `save_answer` upserts keyed by (attempt_id, question_id) -/

/-- Number of `Answer` rows stored for one `(attempt_id, question_id)` key. -/
def Db.answerKeyCount (db : Db) (attempt_id question_id : Nat) : Nat :=
  (db.answers.filter
    (fun ans => ans.attempt_id = attempt_id ∧ ans.question_id = question_id)).length

/-- The `(answer_text, option_id)` pair `save_answer` stores for a question of
the given type: multiple choice keeps only `option_id`, the text types keep
only the stripped `answer_text`. -/
def saveValue (question : Question) (txt : Option String) (oid : Option Nat) :
    Option String × Option Nat :=
  if question.question_type = "multiple_choice" then (none, oid)
  else (some (pyStrip (txt.getD "")), none)

/-- The in-place update `save_answer` applies to an existing answer row. -/
def updatedRow (db : Db) (question : Question) (existing : AnswerRow)
    (txt : Option String) (oid : Option Nat) : AnswerRow :=
  if question.question_type = "multiple_choice" then
    { existing with option_id := oid, answer_text := none, answered_at := db.now }
  else
    { existing with answer_text := some (pyStrip (txt.getD "")), option_id := none,
                    answered_at := db.now }

/-- The fresh answer row `save_answer` inserts when none exists for the key. -/
def insertedRow (db : Db) (question : Question) (attempt_id qid : Nat)
    (txt : Option String) (oid : Option Nat) : AnswerRow :=
  { id := db.nextAnswerId, attempt_id := attempt_id, question_id := qid,
    answer_text :=
      if question.question_type = "multiple_choice" then none
      else some (pyStrip (txt.getD "")),
    option_id :=
      if question.question_type = "multiple_choice" then oid else none,
    is_correct := none, points_earned := none, answered_at := db.now }

/-- The in-place update keeps the row's identity columns. -/
theorem updatedRow_fields (db : Db) (question : Question) (existing : AnswerRow)
    (txt : Option String) (oid : Option Nat) :
    (updatedRow db question existing txt oid).id = existing.id ∧
    (updatedRow db question existing txt oid).attempt_id = existing.attempt_id ∧
    (updatedRow db question existing txt oid).question_id = existing.question_id := by
  refine ⟨?_, ?_, ?_⟩ <;> (unfold updatedRow; split_ifs <;> rfl)

/-- The in-place update stores exactly the value dictated by the question
type. -/
theorem updatedRow_value (db : Db) (question : Question) (existing : AnswerRow)
    (txt : Option String) (oid : Option Nat) :
    ((updatedRow db question existing txt oid).answer_text,
      (updatedRow db question existing txt oid).option_id) =
      saveValue question txt oid := by
  unfold updatedRow saveValue; split_ifs <;> rfl

/-- The inserted row stores exactly the value dictated by the question type. -/
theorem insertedRow_value (db : Db) (question : Question) (attempt_id qid : Nat)
    (txt : Option String) (oid : Option Nat) :
    ((insertedRow db question attempt_id qid txt oid).answer_text,
      (insertedRow db question attempt_id qid txt oid).option_id) =
      saveValue question txt oid := by
  unfold insertedRow saveValue; split_ifs <;> rfl

/-- The in-place update preserves every row id, whether or not the row is the
one being replaced. -/
theorem c9_upd_id (db : Db) (question : Question) (existing : AnswerRow)
    (txt : Option String) (oid : Option Nat) (x : AnswerRow) :
    ((fun ans => if ans.id = existing.id then updatedRow db question existing txt oid
      else ans) x).id = x.id := by
  show (if x.id = existing.id then updatedRow db question existing txt oid
    else x).id = x.id
  by_cases hc : x.id = existing.id
  · rw [if_pos hc, (updatedRow_fields db question existing txt oid).1, hc]
  · rw [if_neg hc]

/-- The in-place update does not change which rows match the key. -/
theorem c9_upd_key_iff (db : Db) (attempt_id qid : Nat) (question : Question)
    (existing : AnswerRow) (txt : Option String) (oid : Option Nat)
    (huniq : db.answers.Pairwise (fun x y => x.id ≠ y.id))
    (hex : db.answers.find?
      (fun ans => ans.attempt_id = attempt_id ∧ ans.question_id = qid) =
        some existing) :
    ∀ x ∈ db.answers,
      (((if x.id = existing.id then updatedRow db question existing txt oid
          else x)).attempt_id = attempt_id ∧
       ((if x.id = existing.id then updatedRow db question existing txt oid
          else x)).question_id = qid) ↔
      (x.attempt_id = attempt_id ∧ x.question_id = qid) := by
  intro x hx
  by_cases hc : x.id = existing.id
  · have hmemEx := List.mem_of_find?_eq_some hex
    have hxe : x = existing := pairwise_key_eq (fun r => r.id) huniq hmemEx hx hc
    have hf := updatedRow_fields db question existing txt oid
    rw [if_pos hc, hf.2.1, hf.2.2, hxe]
  · rw [if_neg hc]

/-- With at most one row per key, a member matching the key is the found
row. -/
theorem c9_key_unique (db : Db) (attempt_id qid : Nat) (existing : AnswerRow)
    (hcount : db.answerKeyCount attempt_id qid ≤ 1)
    (hex : db.answers.find?
      (fun ans => ans.attempt_id = attempt_id ∧ ans.question_id = qid) =
        some existing) :
    ∀ x ∈ db.answers, x.attempt_id = attempt_id → x.question_id = qid →
      x = existing := by
  intro x hx h1 h2
  have hmemEx := List.mem_of_find?_eq_some hex
  have hkeyEx : existing.attempt_id = attempt_id ∧ existing.question_id = qid := by
    simpa using List.find?_some hex
  have hxf : x ∈ db.answers.filter
      (fun ans => ans.attempt_id = attempt_id ∧ ans.question_id = qid) :=
    List.mem_filter.mpr ⟨hx, by simp [h1, h2]⟩
  have hef : existing ∈ db.answers.filter
      (fun ans => ans.attempt_id = attempt_id ∧ ans.question_id = qid) :=
    List.mem_filter.mpr ⟨hmemEx, by simp [hkeyEx.1, hkeyEx.2]⟩
  have hlen : (db.answers.filter
      (fun ans => ans.attempt_id = attempt_id ∧ ans.question_id = qid)).length ≤ 1 :=
    hcount
  cases hf : db.answers.filter
      (fun ans => ans.attempt_id = attempt_id ∧ ans.question_id = qid) with
  | nil => rw [hf] at hxf; cases hxf
  | cons z zs =>
    rw [hf] at hxf hef hlen
    cases zs with
    | cons w ws => simp at hlen
    | nil =>
      have hx' : x = z := by simpa using hxf
      have he' : existing = z := by simpa using hef
      rw [hx', he']

/-- After an in-place update there is exactly one row for the key. -/
theorem c9_count_after_update (db : Db) (attempt_id qid : Nat)
    (question : Question) (existing : AnswerRow) (txt : Option String)
    (oid : Option Nat)
    (huniq : db.answers.Pairwise (fun x y => x.id ≠ y.id))
    (hcount : db.answerKeyCount attempt_id qid ≤ 1)
    (hex : db.answers.find?
      (fun ans => ans.attempt_id = attempt_id ∧ ans.question_id = qid) =
        some existing) :
    ({ db with answers := db.answers.map (fun ans =>
        if ans.id = existing.id then updatedRow db question existing txt oid
        else ans) } : Db).answerKeyCount attempt_id qid = 1 := by
  have hmemEx := List.mem_of_find?_eq_some hex
  have hkeyEx : existing.attempt_id = attempt_id ∧ existing.question_id = qid := by
    simpa using List.find?_some hex
  show ((db.answers.map _).filter _).length = 1
  rw [filter_map_invar _ _ _ (fun x hx => by
    exact decide_eq_decide.mpr
      (c9_upd_key_iff db attempt_id qid question existing txt oid huniq hex x hx))]
  rw [List.length_map]
  have hge : 0 < (db.answers.filter
      (fun ans => ans.attempt_id = attempt_id ∧ ans.question_id = qid)).length :=
    List.length_pos.mpr (List.ne_nil_of_mem
      (List.mem_filter.mpr ⟨hmemEx, by simp [hkeyEx.1, hkeyEx.2]⟩))
  have hle : (db.answers.filter
      (fun ans => ans.attempt_id = attempt_id ∧ ans.question_id = qid)).length ≤ 1 :=
    hcount
  omega

/-- After an in-place update every row for the key holds the new value. -/
theorem c9_value_after_update (db : Db) (attempt_id qid : Nat)
    (question : Question) (existing : AnswerRow) (txt : Option String)
    (oid : Option Nat)
    (huniq : db.answers.Pairwise (fun x y => x.id ≠ y.id))
    (hcount : db.answerKeyCount attempt_id qid ≤ 1)
    (hex : db.answers.find?
      (fun ans => ans.attempt_id = attempt_id ∧ ans.question_id = qid) =
        some existing) :
    ∀ ans ∈ db.answers.map (fun ans =>
        if ans.id = existing.id then updatedRow db question existing txt oid
        else ans),
      ans.attempt_id = attempt_id → ans.question_id = qid →
      (ans.answer_text, ans.option_id) = saveValue question txt oid := by
  intro ans hans ha1 ha2
  obtain ⟨x, hx, hfx⟩ := List.mem_map.mp hans
  by_cases hc : x.id = existing.id
  · rw [← hfx]
    simp only [if_pos hc]
    exact updatedRow_value db question existing txt oid
  · have hxa : ans = x := by rw [← hfx]; simp only [if_neg hc]
    have hxe := c9_key_unique db attempt_id qid existing hcount hex x hx
      (hxa ▸ ha1) (hxa ▸ ha2)
    exact absurd (by rw [hxe]) hc

/-- The in-place update keeps ids pairwise distinct. -/
theorem c9_pairwise_after_update (db : Db) (attempt_id qid : Nat)
    (question : Question) (existing : AnswerRow) (txt : Option String)
    (oid : Option Nat)
    (huniq : db.answers.Pairwise (fun x y => x.id ≠ y.id)) :
    (db.answers.map (fun ans =>
      if ans.id = existing.id then updatedRow db question existing txt oid
      else ans)).Pairwise (fun x y => x.id ≠ y.id) := by
  refine List.pairwise_map.mpr (List.Pairwise.imp_of_mem ?_ huniq)
  intro a b _ _ hab
  rw [c9_upd_id db question existing txt oid a,
      c9_upd_id db question existing txt oid b]
  exact hab

/-- The in-place update keeps every id below the unchanged counter. -/
theorem c9_fresh_after_update (db : Db) (attempt_id qid : Nat)
    (question : Question) (existing : AnswerRow) (txt : Option String)
    (oid : Option Nat)
    (hfresh : ∀ ans ∈ db.answers, ans.id < db.nextAnswerId) :
    ∀ ans ∈ db.answers.map (fun ans =>
        if ans.id = existing.id then updatedRow db question existing txt oid
        else ans),
      ans.id < db.nextAnswerId := by
  intro ans hans
  obtain ⟨x, hx, hfx⟩ := List.mem_map.mp hans
  rw [← hfx, c9_upd_id db question existing txt oid x]
  exact hfresh x hx

/-- After an insert there is exactly one row for the key. -/
theorem c9_count_after_insert (db : Db) (attempt_id qid : Nat)
    (question : Question) (txt : Option String) (oid : Option Nat)
    (hex : db.answers.find?
      (fun ans => ans.attempt_id = attempt_id ∧ ans.question_id = qid) = none) :
    ({ db with
        answers := db.answers ++ [insertedRow db question attempt_id qid txt oid],
        nextAnswerId := db.nextAnswerId + 1 } : Db).answerKeyCount attempt_id qid
      = 1 := by
  show ((db.answers ++ [insertedRow db question attempt_id qid txt oid]).filter
    _).length = 1
  rw [List.filter_append]
  have h1 : db.answers.filter
      (fun ans => ans.attempt_id = attempt_id ∧ ans.question_id = qid) = [] :=
    List.filter_eq_nil_iff.mpr (fun a ha => List.find?_eq_none.mp hex a ha)
  rw [h1]
  simp [insertedRow]

/-- After an insert the single row for the key holds the new value. -/
theorem c9_value_after_insert (db : Db) (attempt_id qid : Nat)
    (question : Question) (txt : Option String) (oid : Option Nat)
    (hex : db.answers.find?
      (fun ans => ans.attempt_id = attempt_id ∧ ans.question_id = qid) = none) :
    ∀ ans ∈ db.answers ++ [insertedRow db question attempt_id qid txt oid],
      ans.attempt_id = attempt_id → ans.question_id = qid →
      (ans.answer_text, ans.option_id) = saveValue question txt oid := by
  intro ans hans ha1 ha2
  rcases List.mem_append.mp hans with h | h
  · have hn := List.find?_eq_none.mp hex ans h
    exact absurd (by simp [ha1, ha2] : (fun ans =>
      decide (ans.attempt_id = attempt_id ∧ ans.question_id = qid)) ans = true) hn
  · rw [List.mem_singleton.mp h]
    exact insertedRow_value db question attempt_id qid txt oid

/-- The insert keeps ids pairwise distinct: the new id is fresh. -/
theorem c9_pairwise_after_insert (db : Db) (attempt_id qid : Nat)
    (question : Question) (txt : Option String) (oid : Option Nat)
    (huniq : db.answers.Pairwise (fun x y => x.id ≠ y.id))
    (hfresh : ∀ ans ∈ db.answers, ans.id < db.nextAnswerId) :
    (db.answers ++ [insertedRow db question attempt_id qid txt oid]).Pairwise
      (fun x y => x.id ≠ y.id) := by
  rw [List.pairwise_append]
  refine ⟨huniq, List.pairwise_singleton _ _, ?_⟩
  intro a ha b hb
  rw [List.mem_singleton.mp hb]
  have := hfresh a ha
  show a.id ≠ (insertedRow db question attempt_id qid txt oid).id
  simp only [insertedRow]
  omega

/-- Every id stays below the incremented counter after the insert. -/
theorem c9_fresh_after_insert (db : Db) (attempt_id qid : Nat)
    (question : Question) (txt : Option String) (oid : Option Nat)
    (hfresh : ∀ ans ∈ db.answers, ans.id < db.nextAnswerId) :
    ∀ ans ∈ db.answers ++ [insertedRow db question attempt_id qid txt oid],
      ans.id < db.nextAnswerId + 1 := by
  intro ans hans
  rcases List.mem_append.mp hans with h | h
  · have := hfresh ans h
    omega
  · rw [List.mem_singleton.mp h]
    simp [insertedRow]

/-- A successful `save_answer` leaves exactly one answer row for the key,
holding the new value, and preserves the shape invariants of the answers
table.  This is the single-call workhorse behind C9. -/
theorem save_answer_success (db : Db) (student_id attempt_id qid : Nat)
    (att : AttemptRow) (question : Question) (txt : Option String)
    (oid : Option Nat)
    (hfind : db.findAttempt attempt_id = some att)
    (hown : att.student_id = student_id)
    (hnc : att.is_completed = false)
    (hqid : qid ≠ 0)
    (hq : db.findQuestion qid = some question)
    (hquiz : question.quiz_id = att.quiz_id)
    (huniq : db.answers.Pairwise (fun x y => x.id ≠ y.id))
    (hfresh : ∀ ans ∈ db.answers, ans.id < db.nextAnswerId)
    (hcount : db.answerKeyCount attempt_id qid ≤ 1) :
    ∃ db', save_answer db student_id attempt_id (some qid) txt oid = (.saved, db') ∧
      db'.attempts = db.attempts ∧
      db'.questions = db.questions ∧
      db'.answerKeyCount attempt_id qid = 1 ∧
      (∀ ans ∈ db'.answers, ans.attempt_id = attempt_id → ans.question_id = qid →
        (ans.answer_text, ans.option_id) = saveValue question txt oid) ∧
      db'.answers.Pairwise (fun x y => x.id ≠ y.id) ∧
      (∀ ans ∈ db'.answers, ans.id < db'.nextAnswerId) := by
  cases hex : db.answers.find?
      (fun ans => ans.attempt_id = attempt_id ∧ ans.question_id = qid) with
  | some existing =>
    refine ⟨{ db with answers := db.answers.map (fun ans =>
      if ans.id = existing.id then updatedRow db question existing txt oid
      else ans) }, ?_, rfl, rfl, ?_, ?_, ?_, ?_⟩
    · have hex' : db.answers.find? (fun ans =>
          decide (ans.attempt_id = attempt_id) && decide (ans.question_id = qid)) =
            some existing := by
        simpa using hex
      simp [save_answer, hfind, hown, hnc, truthyNat, hqid, hq, hquiz, hex',
        updatedRow]
    · exact c9_count_after_update db attempt_id qid question existing txt oid huniq hcount hex
    · exact c9_value_after_update db attempt_id qid question existing txt oid huniq hcount hex
    · exact c9_pairwise_after_update db attempt_id qid question existing txt oid huniq
    · exact c9_fresh_after_update db attempt_id qid question existing txt oid hfresh
  | none =>
    refine ⟨{ db with
        answers := db.answers ++ [insertedRow db question attempt_id qid txt oid],
        nextAnswerId := db.nextAnswerId + 1 }, ?_, rfl, rfl, ?_, ?_, ?_, ?_⟩
    · have hex' : db.answers.find? (fun ans =>
          decide (ans.attempt_id = attempt_id) && decide (ans.question_id = qid)) =
            none := by
        simpa using hex
      simp [save_answer, hfind, hown, hnc, truthyNat, hqid, hq, hquiz, hex',
        insertedRow]
    · exact c9_count_after_insert db attempt_id qid question txt oid hex
    · exact c9_value_after_insert db attempt_id qid question txt oid hex
    · exact c9_pairwise_after_insert db attempt_id qid question txt oid huniq hfresh
    · exact c9_fresh_after_insert db attempt_id qid question txt oid hfresh

/-- Claim C9: `save_answer` upserts the `Answer` row keyed by
`(attempt_id, question_id)` — two consecutive saves on the same key both
succeed, leave exactly one row for the key after each call, and the surviving
row holds the second value (replace, never duplicate). -/
theorem c9_save_answer_upsert (db : Db) (student_id attempt_id qid : Nat)
    (att : AttemptRow) (question : Question)
    (txt1 txt2 : Option String) (oid1 oid2 : Option Nat)
    (hfind : db.findAttempt attempt_id = some att)
    (hown : att.student_id = student_id)
    (hnc : att.is_completed = false)
    (hqid : qid ≠ 0)
    (hq : db.findQuestion qid = some question)
    (hquiz : question.quiz_id = att.quiz_id)
    (huniq : db.answers.Pairwise (fun x y => x.id ≠ y.id))
    (hfresh : ∀ ans ∈ db.answers, ans.id < db.nextAnswerId)
    (hcount : db.answerKeyCount attempt_id qid ≤ 1) :
    ∃ db1 db2,
      save_answer db student_id attempt_id (some qid) txt1 oid1 = (.saved, db1) ∧
      save_answer db1 student_id attempt_id (some qid) txt2 oid2 = (.saved, db2) ∧
      db1.answerKeyCount attempt_id qid = 1 ∧
      db2.answerKeyCount attempt_id qid = 1 ∧
      (∀ ans ∈ db2.answers, ans.attempt_id = attempt_id → ans.question_id = qid →
        (ans.answer_text, ans.option_id) = saveValue question txt2 oid2) := by
  obtain ⟨db1, hsa1, hatt1, hqs1, hc1, _, hu1, hf1⟩ :=
    save_answer_success db student_id attempt_id qid att question txt1 oid1
      hfind hown hnc hqid hq hquiz huniq hfresh hcount
  have hfind1 : db1.findAttempt attempt_id = some att := by
    show db1.attempts.find? _ = _
    rw [hatt1]
    exact hfind
  have hq1 : db1.findQuestion qid = some question := by
    show db1.questions.find? _ = _
    rw [hqs1]
    exact hq
  obtain ⟨db2, hsa2, _, _, hc2, hv2, _, _⟩ :=
    save_answer_success db1 student_id attempt_id qid att question txt2 oid2
      hfind1 hown hnc hqid hq1 hquiz hu1 hf1 hc1.le
  exact ⟨db1, db2, hsa1, hsa2, hc1, hc2, hv2⟩

/-- State for the C9 witness: attempt 31 freshly started, no answers yet. -/
def c9w_db : Db := (start_quiz_attempt db0 1 7).2

/-- The in-progress attempt row of the C9 witness state. -/
def c9w_att : AttemptRow := ⟨31, 1, 7, 100, none, false, none, none, none⟩

/-- Witness for C9: the student answers question 11 with option 21, then
changes the answer to option 22. -/
theorem c9_witness :
    (c9w_db.findAttempt 31 = some c9w_att ∧
     c9w_att.student_id = 7 ∧
     c9w_att.is_completed = false ∧
     (11 : Nat) ≠ 0 ∧
     c9w_db.findQuestion 11 = some q11 ∧
     q11.quiz_id = c9w_att.quiz_id ∧
     c9w_db.answers.Pairwise (fun x y => x.id ≠ y.id) ∧
     (∀ ans ∈ c9w_db.answers, ans.id < c9w_db.nextAnswerId) ∧
     c9w_db.answerKeyCount 31 11 ≤ 1) ∧
    (∃ db1 db2,
      save_answer c9w_db 7 31 (some 11) none (some 21) = (.saved, db1) ∧
      save_answer db1 7 31 (some 11) none (some 22) = (.saved, db2) ∧
      db1.answerKeyCount 31 11 = 1 ∧
      db2.answerKeyCount 31 11 = 1 ∧
      (∀ ans ∈ db2.answers, ans.attempt_id = 31 → ans.question_id = 11 →
        (ans.answer_text, ans.option_id) = saveValue q11 none (some 22))) :=
  ⟨⟨by decide, by decide, by decide, by decide, by decide, by decide, by decide,
    by decide, by decide⟩,
   c9_save_answer_upsert c9w_db 7 31 11 c9w_att q11 none none (some 21) (some 22)
     (by decide) (by decide) (by decide) (by decide) (by decide) (by decide)
     (by decide) (by decide) (by decide)⟩

/-! ### Claim C10 — submit grades a multiple-choice answer by `option_id` only -/

/-- Claim C10: at submit time, a multiple-choice answer whose `option_id` is
unset is graded `is_correct = false` with `points_earned = 0`, no matter what
`answer_text` holds — the text fallback of `check_answer` is not reached from
`check_and_update`. -/
theorem c10_submit_mc_option_only (db : Db) (student_id attempt_id : Nat)
    (att : AttemptRow) (ans : AnswerRow) (question : Question)
    (hfind : db.findAttempt attempt_id = some att)
    (hown : att.student_id = student_id)
    (hnc : att.is_completed = false)
    (huniq : db.answers.Pairwise (fun x y => x.id ≠ y.id))
    (hans : ans ∈ db.answers)
    (haid : ans.attempt_id = attempt_id)
    (hq : db.findQuestion ans.question_id = some question)
    (htype : question.question_type = "multiple_choice")
    (hopt : ans.option_id = none) :
    ∀ ans' ∈ (submit_quiz_attempt db student_id attempt_id).2.answers,
      ans'.id = ans.id →
        ans'.is_correct = some false ∧ ans'.points_earned = some 0 := by
  intro ans' hans' hid
  rw [submit_result db student_id attempt_id att hfind hown hnc] at hans'
  have hans2 : ans' ∈ gradeAnswers db attempt_id := hans'
  obtain ⟨x, hx, hfx⟩ := List.mem_map.mp hans2
  have hxid : x.id = ans.id := by
    rw [← hid, ← hfx, (gradeOne_fields db attempt_id x).1]
  have hxe : x = ans := pairwise_key_eq (fun r => r.id) huniq hans hx hxid
  rw [hxe] at hfx
  rw [← hfx]
  simp [gradeOne, haid, hq, Answer.check_and_update, htype, hopt, truthyNat]

/-- State for the C10 witness: attempt 31 in progress holds an answer row for
the multiple-choice question 11 whose `option_id` is unset while its
`answer_text` is exactly the correct option's text, `"4"`. -/
def c10_db : Db :=
  { db0 with attempts := [⟨31, 1, 7, 100, none, false, none, none, none⟩],
             answers := [⟨41, 31, 11, some "4", none, none, none, 100⟩],
             nextAttemptId := 32, nextAnswerId := 42 }

/-- Witness for C10: despite `answer_text` matching the correct option's text
exactly, the submitted answer grades false with zero points. -/
theorem c10_witness :
    (c10_db.findAttempt 31 =
       some ⟨31, 1, 7, 100, none, false, none, none, none⟩ ∧
     (⟨31, 1, 7, 100, none, false, none, none, none⟩ :
        AttemptRow).student_id = 7 ∧
     (⟨31, 1, 7, 100, none, false, none, none, none⟩ :
        AttemptRow).is_completed = false ∧
     c10_db.answers.Pairwise (fun x y => x.id ≠ y.id) ∧
     (⟨41, 31, 11, some "4", none, none, none, 100⟩ : AnswerRow) ∈ c10_db.answers ∧
     (⟨41, 31, 11, some "4", none, none, none, 100⟩ :
        AnswerRow).attempt_id = 31 ∧
     c10_db.findQuestion
       (⟨41, 31, 11, some "4", none, none, none, 100⟩ : AnswerRow).question_id =
         some q11 ∧
     q11.question_type = "multiple_choice" ∧
     (⟨41, 31, 11, some "4", none, none, none, 100⟩ : AnswerRow).option_id = none ∧
     (⟨41, 31, 11, some "4", none, none, none, 100⟩ : AnswerRow).answer_text =
       some opt22.option_text ∧
     opt22.is_correct = true) ∧
    (∀ ans' ∈ (submit_quiz_attempt c10_db 7 31).2.answers,
      ans'.id = (⟨41, 31, 11, some "4", none, none, none, 100⟩ : AnswerRow).id →
        ans'.is_correct = some false ∧ ans'.points_earned = some 0) :=
  ⟨⟨by decide, by decide, by decide, by decide, by decide, by decide, by decide,
    by decide, by decide, by decide, by decide⟩,
   c10_submit_mc_option_only c10_db 7 31
     ⟨31, 1, 7, 100, none, false, none, none, none⟩
     ⟨41, 31, 11, some "4", none, none, none, 100⟩ q11
     (by decide) (by decide) (by decide) (by decide) (by decide) (by decide)
     (by decide) (by decide) (by decide)⟩

/-! ### Claim C8 — the multiple-choice option invariant at authoring time -/

/-- Every multiple-choice question has at least two options and exactly one
marked correct. -/
def mcOptionsInvariant (db : Db) : Prop :=
  ∀ q ∈ db.questions, q.question_type = "multiple_choice" →
    2 ≤ q.options.length ∧ (q.options.filter (·.is_correct)).length = 1

/-- `buildOptions` creates one row per payload entry. -/
theorem buildOptions_length (firstOptionId question_id : Nat)
    (options : List OptionPayload) :
    (buildOptions firstOptionId question_id options).length = options.length := by
  unfold buildOptions
  rw [List.length_map, List.enum_eq_enumFrom, List.enumFrom_length]

/-- Filtering pairs by a property of the second component matches filtering
the underlying list. -/
theorem filter_snd_enumFrom (p : OptionPayload → Bool) (n : Nat)
    (l : List OptionPayload) :
    ((l.enumFrom n).filter (fun pr => p pr.2)).length = (l.filter p).length := by
  induction l generalizing n with
  | nil => rfl
  | cons x xs ih =>
    rw [List.enumFrom_cons]
    by_cases hp : p x = true
    · rw [List.filter_cons_of_pos (by simpa using hp), List.filter_cons_of_pos hp,
        List.length_cons, List.length_cons, ih]
    · rw [List.filter_cons_of_neg (by simpa using hp),
        List.filter_cons_of_neg (by simpa using hp), ih]

/-- `buildOptions` keeps the number of correct options of the payload. -/
theorem buildOptions_correct_count (firstOptionId question_id : Nat)
    (options : List OptionPayload) :
    ((buildOptions firstOptionId question_id options).filter (·.is_correct)).length
      = (options.filter (·.is_correct)).length := by
  unfold buildOptions
  rw [List.filter_map, List.length_map, List.enum_eq_enumFrom]
  exact filter_snd_enumFrom (·.is_correct) 0 options

/-- An otherwise valid multiple-choice payload with fewer than two options is
rejected and nothing is created. -/
theorem add_question_reject_few (db : Db) (tutor_id quiz_id : Nat)
    (data : AddQuestionPayload) (quiz : QuizRow)
    (hfq : db.findQuiz quiz_id = some quiz)
    (hass : db.isAssigned quiz.course_id tutor_id = true)
    (hqt : pyStrip data.question_type = "multiple_choice")
    (htext : pyStrip data.question_text ≠ "")
    (hpts : 0 < data.points)
    (hlen : data.options.length < 2) :
    add_question db tutor_id quiz_id data = (.tooFewOptions, db) := by
  simp [add_question, hfq, hass, hqt, htext, not_le.mpr hpts, hlen]

/-- An otherwise valid multiple-choice payload whose correct-option count is
not exactly one is rejected and nothing is created. -/
theorem add_question_reject_count (db : Db) (tutor_id quiz_id : Nat)
    (data : AddQuestionPayload) (quiz : QuizRow)
    (hfq : db.findQuiz quiz_id = some quiz)
    (hass : db.isAssigned quiz.course_id tutor_id = true)
    (hqt : pyStrip data.question_type = "multiple_choice")
    (htext : pyStrip data.question_text ≠ "")
    (hpts : 0 < data.points)
    (hlen : 2 ≤ data.options.length)
    (hcnt : (data.options.filter (·.is_correct)).length ≠ 1) :
    add_question db tutor_id quiz_id data = (.correctCountNotOne, db) := by
  simp [add_question, hfq, hass, hqt, htext, not_le.mpr hpts, not_lt.mpr hlen,
    hcnt]

/-- `add_question` preserves the multiple-choice option invariant on every
path. -/
theorem add_question_invariant (db : Db) (tutor_id quiz_id : Nat)
    (data : AddQuestionPayload) (hinv : mcOptionsInvariant db) :
    mcOptionsInvariant (add_question db tutor_id quiz_id data).2 := by
  unfold add_question
  split
  · exact hinv
  · dsimp only
    split_ifs with h1 h2 h3 h4 h5 h6 h7
    any_goals exact hinv
    · intro q hq hmc
      rcases List.mem_append.mp hq with h | h
      · exact hinv q h hmc
      · rw [List.mem_singleton.mp h]
        constructor
        · show 2 ≤ (buildOptions db.nextOptionId db.nextQuestionId
            data.options).length
          rw [buildOptions_length]
          by_contra hlt
          simp_all
        · show ((buildOptions db.nextOptionId db.nextQuestionId
            data.options).filter (·.is_correct)).length = 1
          rw [buildOptions_correct_count]
          by_contra hne
          simp_all
    · intro q hq hmc
      rcases List.mem_append.mp hq with h | h
      · exact hinv q h hmc
      · rw [List.mem_singleton.mp h] at hmc
        simp_all

/-- Replacing a multiple-choice question's options with fewer than two is
rejected, leaving the question and its old options untouched. -/
theorem update_question_reject_few (db : Db) (tutor_id question_id : Nat)
    (data : UpdateQuestionPayload) (question : Question) (quiz : QuizRow)
    (opts : List OptionPayload)
    (hfq : db.findQuestion question_id = some question)
    (hqz : db.findQuiz question.quiz_id = some quiz)
    (hass : db.isAssigned quiz.course_id tutor_id = true)
    (htype : question.question_type = "multiple_choice")
    (hopts : data.options = some opts)
    (hlen : opts.length < 2) :
    update_question db tutor_id question_id data = (.tooFewOptions, db) := by
  simp [update_question, hfq, hqz, hass, htype, hopts, hlen]

/-- Replacing a multiple-choice question's options with a set whose correct
count is not one is rejected, leaving the question untouched. -/
theorem update_question_reject_count (db : Db) (tutor_id question_id : Nat)
    (data : UpdateQuestionPayload) (question : Question) (quiz : QuizRow)
    (opts : List OptionPayload)
    (hfq : db.findQuestion question_id = some question)
    (hqz : db.findQuiz question.quiz_id = some quiz)
    (hass : db.isAssigned quiz.course_id tutor_id = true)
    (htype : question.question_type = "multiple_choice")
    (hopts : data.options = some opts)
    (hlen : 2 ≤ opts.length)
    (hcnt : (opts.filter (·.is_correct)).length ≠ 1) :
    update_question db tutor_id question_id data = (.correctCountNotOne, db) := by
  simp [update_question, hfq, hqz, hass, htype, hopts, not_lt.mpr hlen, hcnt]

/-- `update_question` preserves the multiple-choice option invariant on every
path. -/
theorem update_question_invariant (db : Db) (tutor_id question_id : Nat)
    (data : UpdateQuestionPayload) (hinv : mcOptionsInvariant db) :
    mcOptionsInvariant (update_question db tutor_id question_id data).2 := by
  unfold update_question
  split
  · exact hinv
  next question heq =>
    split
    · exact hinv
    next quiz heq2 =>
      have hqmem := List.mem_of_find?_eq_some heq
      dsimp only
      split_ifs with h1 h2 h3 h4
      any_goals exact hinv
      all_goals (
        intro q hq hmc
        obtain ⟨x, hx, hfx⟩ := List.mem_map.mp hq
        by_cases hxq : x.id = question.id
        · rw [← hfx] at hmc ⊢
          simp only [if_pos hxq] at hmc ⊢
          first
            | (constructor
               · show 2 ≤ (buildOptions db.nextOptionId question.id
                   (data.options.getD [])).length
                 rw [buildOptions_length]
                 by_contra hlt
                 simp_all
               · show ((buildOptions db.nextOptionId question.id
                   (data.options.getD [])).filter (·.is_correct)).length = 1
                 rw [buildOptions_correct_count]
                 by_contra hne
                 simp_all)
            | exact hinv question hqmem hmc
        · rw [← hfx] at hmc ⊢
          simp only [if_neg hxq] at hmc ⊢
          exact hinv x hx hmc)

/-- Claim C8: every multiple-choice question has at least two options and
exactly one correct one at all times — `add_question` rejects a
multiple-choice payload whose option list is too small or whose correct count
is not one (creating nothing), `update_question` re-validates a replacement
option set the same way before it takes effect, and both operations preserve
the invariant on every path. -/
theorem c8_mc_options_invariant (db : Db) (hinv : mcOptionsInvariant db) :
    (∀ tutor_id quiz_id data quiz, db.findQuiz quiz_id = some quiz →
      db.isAssigned quiz.course_id tutor_id = true →
      pyStrip data.question_type = "multiple_choice" →
      pyStrip data.question_text ≠ "" → 0 < data.points →
      ((data.options.length < 2 →
        add_question db tutor_id quiz_id data = (.tooFewOptions, db)) ∧
       (2 ≤ data.options.length →
        (data.options.filter (·.is_correct)).length ≠ 1 →
        add_question db tutor_id quiz_id data = (.correctCountNotOne, db)))) ∧
    (∀ tutor_id quiz_id data,
      mcOptionsInvariant (add_question db tutor_id quiz_id data).2) ∧
    (∀ tutor_id question_id data question quiz opts,
      db.findQuestion question_id = some question →
      db.findQuiz question.quiz_id = some quiz →
      db.isAssigned quiz.course_id tutor_id = true →
      question.question_type = "multiple_choice" →
      data.options = some opts →
      ((opts.length < 2 →
        update_question db tutor_id question_id data = (.tooFewOptions, db)) ∧
       (2 ≤ opts.length → (opts.filter (·.is_correct)).length ≠ 1 →
        update_question db tutor_id question_id data = (.correctCountNotOne, db)))) ∧
    (∀ tutor_id question_id data,
      mcOptionsInvariant (update_question db tutor_id question_id data).2) :=
  ⟨fun t qz d quiz hfq hass hqt htext hpts =>
    ⟨fun hlen => add_question_reject_few db t qz d quiz hfq hass hqt htext hpts hlen,
     fun hlen hcnt =>
       add_question_reject_count db t qz d quiz hfq hass hqt htext hpts hlen hcnt⟩,
   fun t qz d => add_question_invariant db t qz d hinv,
   fun t qi d question quiz opts hfq hqz hass htype hopts =>
    ⟨fun hlen =>
       update_question_reject_few db t qi d question quiz opts hfq hqz hass
         htype hopts hlen,
     fun hlen hcnt =>
       update_question_reject_count db t qi d question quiz opts hfq hqz hass
         htype hopts hlen hcnt⟩,
   fun t qi d => update_question_invariant db t qi d hinv⟩

/-- Witness for C8 at the base fixture, whose only multiple-choice question
(q11) has two options with exactly one correct. -/
theorem c8_witness :
    mcOptionsInvariant db0 ∧
    ((∀ tutor_id quiz_id data quiz, db0.findQuiz quiz_id = some quiz →
      db0.isAssigned quiz.course_id tutor_id = true →
      pyStrip data.question_type = "multiple_choice" →
      pyStrip data.question_text ≠ "" → 0 < data.points →
      ((data.options.length < 2 →
        add_question db0 tutor_id quiz_id data = (.tooFewOptions, db0)) ∧
       (2 ≤ data.options.length →
        (data.options.filter (·.is_correct)).length ≠ 1 →
        add_question db0 tutor_id quiz_id data = (.correctCountNotOne, db0)))) ∧
    (∀ tutor_id quiz_id data,
      mcOptionsInvariant (add_question db0 tutor_id quiz_id data).2) ∧
    (∀ tutor_id question_id data question quiz opts,
      db0.findQuestion question_id = some question →
      db0.findQuiz question.quiz_id = some quiz →
      db0.isAssigned quiz.course_id tutor_id = true →
      question.question_type = "multiple_choice" →
      data.options = some opts →
      ((opts.length < 2 →
        update_question db0 tutor_id question_id data = (.tooFewOptions, db0)) ∧
       (2 ≤ opts.length → (opts.filter (·.is_correct)).length ≠ 1 →
        update_question db0 tutor_id question_id data = (.correctCountNotOne, db0)))) ∧
    (∀ tutor_id question_id data,
      mcOptionsInvariant (update_question db0 tutor_id question_id data).2)) := by
  have hinv : mcOptionsInvariant db0 := by
    intro q hq
    fin_cases hq <;> decide
  exact ⟨hinv, c8_mc_options_invariant db0 hinv⟩

end SenseLearn
